import Mathlib

/-!
Shallow embedding of the earthsim tick pipeline (src/main.js) over exact
rational arithmetic. The grid is a total function from coordinates to tiles;
all in-place mutation of the JavaScript source is rendered as explicit state
passing, and every draw of `Math.random()` is an explicit parameter.
-/

namespace EarthSim

inductive TileCover where
  | NotComputed
  | Rock
  | Water
  | Ice
deriving DecidableEq

@[ext]
structure Biomass where
  total : ℚ
  prokaryote : ℚ
deriving DecidableEq

@[ext]
structure Tile where
  altitude : ℚ
  baseLuminosity : ℚ
  heat : ℚ
  tileCover : TileCover
  biomass : Biomass
deriving DecidableEq

@[ext]
structure Atmosphere where
  nitrogen : ℚ
  oxygen : ℚ
  carbonDioxide : ℚ
  methane : ℚ
  waterVapour : ℚ
deriving DecidableEq

/-- Constants from the top of src/main.js, as exact rationals. -/
def worldWidth : ℕ := 100

def worldHeight : ℕ := 100

def maxAltitude : ℚ := 5000

def erosionRate : ℚ := 4

def atmosphereLossRate : ℚ := 1/100

def atmospherePerTile : ℚ := 1/(worldHeight * worldWidth)

def seaLevel : ℚ := 1000

def freezingPoint : ℚ := 90

def unlivableTemperature : ℚ := 180

def volcanoDiameter : ℕ := 9

def volcanoHalfDiameter : ℕ := volcanoDiameter / 2

def volcanoMinUpthrust : ℚ := 1000

def volcanoUpthrustVariation : ℚ := 1000

def fullLuminosityHeat : ℚ := 60

def polarLuminosity : ℚ := 1/2

def iceReflectivity : ℚ := 1/4

def waterReflectivity : ℚ := 0

def carbonHeatRetention : ℚ := 1/5

def carbonPerLandTile : ℚ := 1

def waterVaporHeatRetention : ℚ := 1/5

def waterVaporPerOceanTile : ℚ := 1

def photosynthticBiomassPerEnergy : ℚ := 120

def carbonPerPhotosyntheticBiomass : ℚ := 1/100

def oxygenPerPhotosyntheticBiomass : ℚ := 1/100

def prokaryoteAbiogenesisChance : ℚ := 4/1000000

def prokaryoteAbiogenesisMinHeat : ℚ := 160

def prokaryoteReproductionRate : ℚ := 1/200

/-- A grid of tiles, indexed as tiles x y like the source's tiles[x][y]. -/
abbrev Grid := ℕ → ℕ → Tile

/-- Functional update of one grid cell. -/
def setTile (g : Grid) (x y : ℕ) (t : Tile) : Grid :=
  fun a b => if a = x ∧ b = y then t else g a b

/-- Write only the heat field of the cell at (x, y). -/
def setHeat (g : Grid) (x y : ℕ) (h : ℚ) : Grid :=
  setTile g x y { g x y with heat := h }

/-- Write only the biomass.prokaryote field of the cell at (x, y). -/
def setProk (g : Grid) (x y : ℕ) (p : ℚ) : Grid :=
  setTile g x y { g x y with biomass := { (g x y).biomass with prokaryote := p } }

/-- Raise the altitude of the cell at (x, y) by the given amount, clamped
above by maxAltitude. -/
def raiseTile (g : Grid) (x y : ℕ) (amount : ℚ) : Grid :=
  setTile g x y { g x y with altitude := min ((g x y).altitude + amount) maxAltitude }

/-- The whole mutable world state: global atmosphere, tile grid, and the
per-tick global biomass accumulators. -/
structure WorldState where
  atmosphere : Atmosphere
  tiles : Grid
  biomass : Biomass

/-- The iteration order of applyTiles: tiles.forEach over x, then the inner
forEach over y, i.e. coordinates ascending in x and then in y. -/
def tileOrder : List (ℕ × ℕ) :=
  (List.range worldWidth).flatMap (fun x => (List.range worldHeight).map (fun y => (x, y)))

/-- JavaScript Math.floor on a rational. -/
def jsFloor (q : ℚ) : ℚ := ((⌊q⌋ : ℤ) : ℚ)

/-- The offsets (x, y) of the volcano spread matrix, x outer then y inner,
each ranging over 0 .. volcanoDiameter - 1. -/
def volcanoOffsets : List (ℕ × ℕ) :=
  (List.range volcanoDiameter).flatMap
    (fun x => (List.range volcanoDiameter).map (fun y => (x, y)))

/-- The squared distance from the centre of the spread matrix for offset
(x, y): (halfDiameter - x)^2 + (halfDiameter - y)^2, as a natural number. -/
def volcanoSqDist (x y : ℕ) : ℕ :=
  (((volcanoHalfDiameter : ℤ) - x) * ((volcanoHalfDiameter : ℤ) - x) +
   ((volcanoHalfDiameter : ℤ) - y) * ((volcanoHalfDiameter : ℤ) - y)).toNat

/-- The eruption magnitude drawn from the random value r in [0, 1):
volcanoMinUpthrust + floor(volcanoUpthrustVariation * r). -/
def volcanoUpthrust (r : ℚ) : ℚ :=
  volcanoMinUpthrust + jsFloor (volcanoUpthrustVariation * r)

/-- The altitude contribution of the spread matrix at offset (i, j):
max(halfDiameter - dist, 0) / halfDiameter * upthrust. -/
def volcanoSpread (sq : ℕ → ℚ) (upthrust : ℚ) (i j : ℕ) : ℚ :=
  max ((volcanoHalfDiameter : ℚ) - sq (volcanoSqDist i j)) 0 /
    (volcanoHalfDiameter : ℚ) * upthrust

/-- eruptVolcano from the source. `sq` stands in for JavaScript's Math.sqrt
(applied to the squared offset distance); `baseX`, `baseY` are the random
tile pick, and `r` the random draw in [0, 1) for the upthrust magnitude. -/
def eruptVolcano (sq : ℕ → ℚ) (baseX baseY : ℕ) (r : ℚ) (g : Grid) : Grid :=
  volcanoOffsets.foldl (fun g2 off =>
    if baseX + off.1 < worldWidth ∧ baseY + off.2 < worldHeight then
      raiseTile g2 (baseX + off.1) (baseY + off.2)
        (volcanoSpread sq (volcanoUpthrust r) off.1 off.2)
    else g2) g

/-- computeTileAtmosphere from the source. -/
def computeTileAtmosphere (atmosphere : Atmosphere) : Atmosphere :=
  { nitrogen := atmosphere.nitrogen * atmospherePerTile
    oxygen := atmosphere.oxygen * atmospherePerTile
    carbonDioxide := atmosphere.carbonDioxide * atmospherePerTile
    methane := atmosphere.methane * atmospherePerTile
    waterVapour := atmosphere.waterVapour * atmospherePerTile }

/-- computeHeatTrappingFactor from the source. -/
def computeHeatTrappingFactor (atmosphere : Atmosphere) : ℚ :=
  atmosphere.carbonDioxide * carbonHeatRetention +
    atmosphere.waterVapour * waterVaporHeatRetention

/-- computeLuminosity from the source. -/
def computeLuminosity (tile : Tile) : ℚ :=
  if tile.tileCover = TileCover.Water then
    tile.baseLuminosity * (1 - waterReflectivity)
  else if tile.tileCover = TileCover.Ice then
    tile.baseLuminosity * (1 - iceReflectivity)
  else
    tile.baseLuminosity

/-- computeHeat from the source. -/
def computeHeat (tile : Tile) (luminosity heatTrappingFactor : ℚ) : ℚ :=
  let turnHeat := fullLuminosityHeat * luminosity * (1 + heatTrappingFactor)
  turnHeat * (1/5) + tile.heat * (4/5)

/-- computeTileCover from the source. -/
def computeTileCover (tile : Tile) : TileCover :=
  if tile.altitude < seaLevel then
    if tile.heat > freezingPoint then TileCover.Water
    else TileCover.Ice
  else TileCover.Rock

/-- transferHeat from the source, acting on the grid at position (x, y).
Every write is immediately visible to subsequent reads. -/
def transferHeat (g : Grid) (x y : ℕ) : Grid :=
  let hx := (x + 1) % worldWidth
  let horizontalAveHeat := ((g x y).heat + (g hx y).heat) / 2
  let g1 := setHeat g hx y horizontalAveHeat
  if y + 1 ≠ worldHeight then
    let verticalAveHeat := ((g1 x y).heat + (g1 x (y + 1)).heat) / 2
    let g2 := setHeat g1 x (y + 1) verticalAveHeat
    setHeat g2 x y ((horizontalAveHeat + verticalAveHeat) / 2)
  else
    setHeat g1 x y horizontalAveHeat

/-- canProkaryotesSurvive from the source. -/
def canProkaryotesSurvive (tile : Tile) : Prop :=
  tile.heat < unlivableTemperature ∧ tile.tileCover = TileCover.Water

instance (tile : Tile) : Decidable (canProkaryotesSurvive tile) :=
  inferInstanceAs (Decidable (_ ∧ _))

/-- The horizontal (East) half of transferProkaryotes: executed only when the
outer canProkaryotesSurvive check on the tile itself has passed. -/
def transferProkHorizontal (g : Grid) (x y : ℕ) : Grid :=
  let hx := (x + 1) % worldWidth
  if canProkaryotesSurvive (g hx y) ∧
      ((g x y).biomass.prokaryote > 2 ∨ (g hx y).biomass.prokaryote > 2) then
    let avg := ((g x y).biomass.prokaryote + (g hx y).biomass.prokaryote) / 2
    setProk (setProk g hx y avg) x y avg
  else g

/-- The vertical (South) half of transferProkaryotes, reading the grid as
already updated by the horizontal half. -/
def transferProkVertical (g1 : Grid) (x y : ℕ) : Grid :=
  if y + 1 ≠ worldHeight then
    if canProkaryotesSurvive (g1 x (y + 1)) ∧
        ((g1 x y).biomass.prokaryote > 2 ∨ (g1 x (y + 1)).biomass.prokaryote > 2) then
      let avg := ((g1 x y).biomass.prokaryote + (g1 x (y + 1)).biomass.prokaryote) / 2
      setProk (setProk g1 x (y + 1) avg) x y avg
    else g1
  else g1

/-- transferProkaryotes from the source, acting on the grid at (x, y). -/
def transferProkaryotes (g : Grid) (x y : ℕ) : Grid :=
  if canProkaryotesSurvive (g x y) then
    transferProkVertical (transferProkHorizontal g x y) x y
  else g

/-- The biomass a tile is left with after the habitability check at the top
of applyBiomass (death on unlivable heat, non-water cover, or zero local
carbon dioxide share). -/
def survivingBiomass (tile : Tile) (tileAtmosphere : Atmosphere) : Biomass :=
  if tile.heat > unlivableTemperature ∨ tile.tileCover ≠ TileCover.Water ∨
      tileAtmosphere.carbonDioxide = 0 then
    { total := 0, prokaryote := 0 }
  else tile.biomass

/-- The prokaryote population applyBiomass leaves on the tile: the surviving
population grown by the carbon-throttled reproduction rate and clamped to
the energy carrying capacity. -/
def grownProkaryote (tile : Tile) (tileAtmosphere : Atmosphere) : ℚ :=
  let b0 := survivingBiomass tile tileAtmosphere
  let computedProkaryoteReproductionRate :=
    min (tileAtmosphere.carbonDioxide * prokaryoteReproductionRate) prokaryoteReproductionRate
  let p1 := b0.prokaryote + b0.prokaryote * computedProkaryoteReproductionRate
  min p1 (tile.baseLuminosity * fullLuminosityHeat * photosynthticBiomassPerEnergy)

/-- applyBiomass from the source: returns the updated tile, the updated
global atmosphere and the updated global biomass accumulators. -/
def applyBiomass (tile : Tile) (tileAtmosphere atm : Atmosphere) (glob : Biomass) :
    Tile × Atmosphere × Biomass :=
  let p2 := grownProkaryote tile tileAtmosphere
  ({ tile with biomass := { total := p2, prokaryote := p2 } },
   { atm with
      carbonDioxide := atm.carbonDioxide - p2 * carbonPerPhotosyntheticBiomass
      oxygen := atm.oxygen + p2 * oxygenPerPhotosyntheticBiomass },
   { total := glob.total + p2, prokaryote := glob.prokaryote + p2 })

/-- The abiogenesis check inlined in the source's per-tile closure
(main.js lines 360-365); `rand` is the tile's Math.random() draw. -/
def abiogenesisStep (rand : ℚ) (t : Tile) : Tile :=
  if t.biomass.total = 0 ∧ t.heat > prokaryoteAbiogenesisMinHeat ∧
      t.heat < unlivableTemperature then
    if rand < prokaryoteAbiogenesisChance then
      { t with biomass := { total := 1, prokaryote := 1 } }
    else t
  else t

/-- The atmosphere decay phase at the start of tick (main.js lines 338-342). -/
def decayAtmosphere (a : Atmosphere) : Atmosphere :=
  { nitrogen := a.nitrogen - a.nitrogen * atmosphereLossRate
    oxygen := a.oxygen - a.oxygen * atmosphereLossRate
    carbonDioxide := a.carbonDioxide - a.carbonDioxide * atmosphereLossRate
    methane := a.methane - a.methane * atmosphereLossRate
    waterVapour := 0 }

/-- The erosion and heat-smoothing opening of the per-tile closure of tick:
altitude = max(altitude - erosionRate, 0), then the exponential heat update
computed from the eroded tile's luminosity. -/
def erodeAndHeatTile (htf : ℚ) (t0 : Tile) : Tile :=
  let t1 := { t0 with altitude := max (t0.altitude - erosionRate) 0 }
  { t1 with heat := computeHeat t1 (computeLuminosity t1) htf }

/-- The per-cover gas emission of the per-tile closure of tick: water tiles
add waterVaporPerOceanTile to water vapour, rock tiles add
carbonPerLandTile to carbon dioxide. -/
def emitTileGas (a : Atmosphere) (c : TileCover) : Atmosphere :=
  if c = TileCover.Water then
    { a with waterVapour := a.waterVapour + waterVaporPerOceanTile }
  else if c = TileCover.Rock then
    { a with carbonDioxide := a.carbonDioxide + carbonPerLandTile }
  else a

/-- The body of the per-tile closure of tick, up to (and excluding) the call
to transferProkaryotes: erosion, heat update, per-cover gas emission,
abiogenesis, applyBiomass. -/
def localUpdate (tA : Atmosphere) (htf : ℚ) (abioRand : ℕ → ℕ → ℚ)
    (s : WorldState) (pos : ℕ × ℕ) : WorldState :=
  let x := pos.1
  let y := pos.2
  let t2 := erodeAndHeatTile htf (s.tiles x y)
  let atm1 := emitTileGas s.atmosphere t2.tileCover
  let t3 := abiogenesisStep (abioRand x y) t2
  let res := applyBiomass t3 tA atm1 s.biomass
  { atmosphere := res.2.1, tiles := setTile s.tiles x y res.1, biomass := res.2.2 }

/-- One full iteration of the per-tile closure of tick, with the interleaved
transferProkaryotes call at the end. -/
def localStep (tA : Atmosphere) (htf : ℚ) (abioRand : ℕ → ℕ → ℚ)
    (s : WorldState) (pos : ℕ × ℕ) : WorldState :=
  let s1 := localUpdate tA htf abioRand s pos
  { s1 with tiles := transferProkaryotes s1.tiles pos.1 pos.2 }

/-- The per-tile pass of tick: applyTiles over the local closure. -/
def tilePass (tA : Atmosphere) (htf : ℚ) (abioRand : ℕ → ℕ → ℚ)
    (s : WorldState) : WorldState :=
  tileOrder.foldl (localStep tA htf abioRand) s

/-- applyTiles(transferHeat): the heat diffusion pass. -/
def heatPass (g : Grid) : Grid :=
  tileOrder.foldl (fun g2 p => transferHeat g2 p.1 p.2) g

/-- The final reclassification pass of tick. -/
def reclassifyPass (g : Grid) : Grid :=
  tileOrder.foldl
    (fun g2 p => setTile g2 p.1 p.2 { g2 p.1 p.2 with tileCover := computeTileCover (g2 p.1 p.2) }) g

/-- The opening of tick: the eruption, the atmosphere decay, and the reset
of the global biomass accumulators (main.js lines 337-345). -/
def preparedState (sq : ℕ → ℚ) (vx vy : ℕ) (vr : ℚ) (s : WorldState) : WorldState :=
  { atmosphere := decayAtmosphere s.atmosphere
    tiles := eruptVolcano sq vx vy vr s.tiles
    biomass := { total := 0, prokaryote := 0 } }

/-- The state reached by tick after the per-tile pass: the prepared state
folded through the per-tile closure in applyTiles order, with the tile
atmosphere share and heat trapping factor computed once from the decayed
atmosphere. -/
def tickTilePhase (sq : ℕ → ℚ) (vx vy : ℕ) (vr : ℚ) (abioRand : ℕ → ℕ → ℚ)
    (s : WorldState) : WorldState :=
  tilePass (computeTileAtmosphere (decayAtmosphere s.atmosphere))
    (computeHeatTrappingFactor (computeTileAtmosphere (decayAtmosphere s.atmosphere)))
    abioRand (preparedState sq vx vy vr s)

/-- The closing passes of tick: heat diffusion then reclassification, both
acting on the tiles only. -/
def finishTiles (s1 : WorldState) : WorldState :=
  { s1 with tiles := reclassifyPass (heatPass s1.tiles) }

/-- tick from the source. `sq` models Math.sqrt, `vx vy` the random volcano
base tile, `vr` the random volcano magnitude draw, and `abioRand` the
per-tile abiogenesis random draw. -/
def tick (sq : ℕ → ℚ) (vx vy : ℕ) (vr : ℚ) (abioRand : ℕ → ℕ → ℚ)
    (s : WorldState) : WorldState :=
  finishTiles (tickTilePhase sq vx vy vr abioRand s)

/-- The per-tick random inputs of one tick. -/
structure TickRandom where
  vx : ℕ
  vy : ℕ
  vr : ℚ
  abioRand : ℕ → ℕ → ℚ

/-- N-tick run fed by a stream of per-tick random inputs. -/
def run (sq : ℕ → ℚ) (rnd : ℕ → TickRandom) (s : WorldState) : ℕ → WorldState
  | 0 => s
  | n + 1 =>
    let t := run sq rnd s n
    tick sq (rnd n).vx (rnd n).vy (rnd n).vr (rnd n).abioRand t

/-! ### Definitions modelled from the specification and claim wording,
for comparison against the embedded source functions. -/

/-- Modelled from the spec: the raster processing order as the claim words
it — tiles ordered by ascending x and then ascending y. -/
def rasterOrder : List (ℕ × ℕ) :=
  (List.range worldWidth).flatMap (fun x => (List.range worldHeight).map (fun y => (x, y)))

/-- Modelled from the spec (claim C1 wording): for tile (x,y), write
avgE = (heat(x,y)+heat(E))/2 into E = ((x+1) mod W, y) immediately; if
y+1 < H write avgS = (heat(x,y)+heat(S))/2 into S = (x, y+1) immediately
and set the tile's own heat to (avgE+avgS)/2, else set it to avgE alone. -/
def heatDiffusionSpecStep (g : Grid) (x y : ℕ) : Grid :=
  let ex := (x + 1) % worldWidth
  let avgE := ((g x y).heat + (g ex y).heat) / 2
  let g1 := setHeat g ex y avgE
  if y + 1 < worldHeight then
    let avgS := ((g1 x y).heat + (g1 x (y + 1)).heat) / 2
    let g2 := setHeat g1 x (y + 1) avgS
    setHeat g2 x y ((avgE + avgS) / 2)
  else
    setHeat g1 x y avgE

/-- Modelled from the spec (claim C1 wording): the whole heat diffusion
pass, a single forward scan in raster order with immediate writes. -/
def heatDiffusionSpecPass (g : Grid) : Grid :=
  rasterOrder.foldl (fun g2 p => heatDiffusionSpecStep g2 p.1 p.2) g

/-- Modelled from the claim C2 wording: the step-1 habitability check
re-evaluated at diffusion time — heat not above unlivableTemperature,
water cover, and nonzero local CO2 share. -/
def specHabitable (co2Share : ℚ) (t : Tile) : Prop :=
  t.heat ≤ unlivableTemperature ∧ t.tileCover = TileCover.Water ∧ co2Share ≠ 0

instance (co2Share : ℚ) (t : Tile) : Decidable (specHabitable co2Share t) :=
  inferInstanceAs (Decidable (_ ∧ _))

/-- Eligibility of a diffusion pair per the amended claim C2: both tiles
strictly below unlivableTemperature and water-covered (no CO2 condition),
and at least one of the two populations above 2. -/
def amendedEligiblePair (t u : Tile) : Prop :=
  t.heat < unlivableTemperature ∧ t.tileCover = TileCover.Water ∧
    u.heat < unlivableTemperature ∧ u.tileCover = TileCover.Water ∧
    (t.biomass.prokaryote > 2 ∨ u.biomass.prokaryote > 2)

instance (t u : Tile) : Decidable (amendedEligiblePair t u) :=
  inferInstanceAs (Decidable (_ ∧ _))

/-- The East half of the population diffusion step as described by the
amended claim C2. -/
def amendedHorizontal (g : Grid) (x y : ℕ) : Grid :=
  if amendedEligiblePair (g x y) (g ((x + 1) % worldWidth) y) then
    let avg := ((g x y).biomass.prokaryote + (g ((x + 1) % worldWidth) y).biomass.prokaryote) / 2
    setProk (setProk g ((x + 1) % worldWidth) y avg) x y avg
  else g

/-- The South half of the population diffusion step as described by the
amended claim C2, on the already-updated grid. -/
def amendedVertical (g1 : Grid) (x y : ℕ) : Grid :=
  if y + 1 < worldHeight then
    if amendedEligiblePair (g1 x y) (g1 x (y + 1)) then
      let avg := ((g1 x y).biomass.prokaryote + (g1 x (y + 1)).biomass.prokaryote) / 2
      setProk (setProk g1 x (y + 1) avg) x y avg
    else g1
  else g1

/-- The population diffusion step as described by the amended claim C2:
average with the East neighbor when the pair is eligible, then with the
South neighbor (if any) on the already-updated grid. -/
def popDiffusionAmendedStep (g : Grid) (x y : ℕ) : Grid :=
  amendedVertical (amendedHorizontal g x y) x y

/-- Modelled from the claim C4 wording: the offsets (dx, dy) with |dx| ≤ 4
and |dy| ≤ 4 of a 9x9 square centered on the selected tile. -/
def claimVolcanoOffsets : List (ℤ × ℤ) :=
  (List.range volcanoDiameter).flatMap
    (fun i => (List.range volcanoDiameter).map
      (fun j => ((i : ℤ) - volcanoHalfDiameter, (j : ℤ) - volcanoHalfDiameter)))

/-- Modelled from the claim C4 wording: add
upthrust * max(4 - sqrt(dx^2+dy^2), 0)/4 to tile (baseX+dx, baseY+dy) for
every offset of the centered square, clamped to maxAltitude, skipping
offsets whose absolute coordinate falls outside grid bounds. -/
def eruptVolcanoClaim (sq : ℕ → ℚ) (baseX baseY : ℕ) (r : ℚ) (g : Grid) : Grid :=
  claimVolcanoOffsets.foldl (fun g2 off =>
    if 0 ≤ (baseX : ℤ) + off.1 ∧ (baseX : ℤ) + off.1 < worldWidth ∧
        0 ≤ (baseY : ℤ) + off.2 ∧ (baseY : ℤ) + off.2 < worldHeight then
      raiseTile g2 ((baseX : ℤ) + off.1).toNat ((baseY : ℤ) + off.2).toNat
        (max ((volcanoHalfDiameter : ℚ) - sq (off.1 * off.1 + off.2 * off.2).toNat) 0 /
          (volcanoHalfDiameter : ℚ) * volcanoUpthrust r)
    else g2) g

/-- The number of water-covered tiles of the grid. -/
def waterTileCount (g : Grid) : ℕ :=
  tileOrder.countP (fun p => decide ((g p.1 p.2).tileCover = TileCover.Water))

/-- The number of rock-covered tiles of the grid. -/
def rockTileCount (g : Grid) : ℕ :=
  tileOrder.countP (fun p => decide ((g p.1 p.2).tileCover = TileCover.Rock))

/-- Modelled from the spec (§8, testable properties): the per-tile closure
of tick with the biomass model disabled — erosion, heat update and
per-cover gas emission only; growth, gas exchange, abiogenesis and
population diffusion are skipped. -/
def localStepDisabled (htf : ℚ) (s : WorldState) (pos : ℕ × ℕ) : WorldState :=
  let x := pos.1
  let y := pos.2
  let t2 := erodeAndHeatTile htf (s.tiles x y)
  { atmosphere := emitTileGas s.atmosphere t2.tileCover,
    tiles := setTile s.tiles x y t2, biomass := s.biomass }

/-- The state reached by the disabled tick after its per-tile pass. -/
def tickDisabledTilePhase (s : WorldState) : WorldState :=
  tileOrder.foldl
    (localStepDisabled (computeHeatTrappingFactor (computeTileAtmosphere (decayAtmosphere s.atmosphere))))
    { atmosphere := decayAtmosphere s.atmosphere, tiles := s.tiles, biomass := s.biomass }

/-- Modelled from the spec (§8, testable properties): tick with volcanism
disabled (no eruption performed) and biomass disabled. -/
def tickDisabled (s : WorldState) : WorldState :=
  finishTiles (tickDisabledTilePhase s)

/-- N-tick run of the volcanism- and biomass-disabled tick. -/
def runDisabled (s : WorldState) : ℕ → WorldState
  | 0 => s
  | n + 1 => tickDisabled (runDisabled s n)

/-! ### Concrete inputs used by counterexamples and witnesses -/

/-- An integer square-root stand-in for Math.sqrt used at concrete inputs;
it agrees with real sqrt at the decisive comparison points used here:
sq 0 = 0 and sq n ≥ 4 whenever n ≥ 16. -/
def sqC4 (n : ℕ) : ℚ :=
  if n = 0 then 0
  else if n ≤ 3 then 1
  else if n ≤ 8 then 2
  else if n ≤ 15 then 3
  else if n ≤ 24 then 4
  else if n ≤ 35 then 5
  else (n : ℚ)

/-- A flat all-zero grid. -/
def flatGridC4 : Grid := fun _ _ =>
  { altitude := 0, baseLuminosity := 1, heat := 0, tileCover := TileCover.NotComputed,
    biomass := { total := 0, prokaryote := 0 } }

/-- A water world whose tiles are all freshly habitable around (0,0). -/
def gridC2 : Grid := fun x y =>
  if x = 0 ∧ y = 0 then
    { altitude := 0, baseLuminosity := 1, heat := 100, tileCover := TileCover.Water,
      biomass := { total := 5, prokaryote := 5 } }
  else if x = 1 ∧ y = 0 then
    { altitude := 0, baseLuminosity := 1, heat := 100, tileCover := TileCover.Water,
      biomass := { total := 1, prokaryote := 1 } }
  else
    { altitude := 0, baseLuminosity := 1, heat := 100, tileCover := TileCover.Water,
      biomass := { total := 0, prokaryote := 0 } }

/-- A water world with population 6 at (0,0) and 0 everywhere else. -/
def gridC6 : Grid := fun x y =>
  if x = 0 ∧ y = 0 then
    { altitude := 0, baseLuminosity := 1, heat := 100, tileCover := TileCover.Water,
      biomass := { total := 6, prokaryote := 6 } }
  else
    { altitude := 0, baseLuminosity := 1, heat := 100, tileCover := TileCover.Water,
      biomass := { total := 0, prokaryote := 0 } }

/-- A rock tile with zero biomass whose heat lies strictly between
prokaryoteAbiogenesisMinHeat and unlivableTemperature. -/
def rockTileC3 : Tile :=
  { altitude := 2000, baseLuminosity := 1, heat := 170, tileCover := TileCover.Rock,
    biomass := { total := 0, prokaryote := 0 } }

/-- The C5 counterexample grid: a fully habitable water tile at (0,0)
carrying a population at its carrying capacity, an overheated water world
elsewhere. -/
def tileC5 (x y : ℕ) : Tile :=
  if x = 0 ∧ y = 0 then
    { altitude := 0, baseLuminosity := 1, heat := 100, tileCover := TileCover.Water,
      biomass := { total := 7200, prokaryote := 7200 } }
  else
    { altitude := 0, baseLuminosity := 1, heat := 250, tileCover := TileCover.Water,
      biomass := { total := 0, prokaryote := 0 } }

/-- The C5 counterexample state: every gas and every biomass value is
nonnegative, with a small positive CO2 pool. -/
def stateC5 : WorldState :=
  { atmosphere := { nitrogen := 0, oxygen := 0, carbonDioxide := 1, methane := 0, waterVapour := 0 },
    tiles := tileC5,
    biomass := { total := 0, prokaryote := 0 } }

/-- Boolean check that all gas pools and all in-grid biomass values of a
state are nonnegative. -/
def nonnegStateB (s : WorldState) : Bool :=
  decide (0 ≤ s.atmosphere.nitrogen) && decide (0 ≤ s.atmosphere.oxygen) &&
    decide (0 ≤ s.atmosphere.carbonDioxide) && decide (0 ≤ s.atmosphere.methane) &&
    decide (0 ≤ s.atmosphere.waterVapour) &&
    tileOrder.all (fun p => decide (0 ≤ (s.tiles p.1 p.2).biomass.prokaryote) &&
      decide (0 ≤ (s.tiles p.1 p.2).biomass.total))

/-- A uniform all-rock world with an empty atmosphere. -/
def rockTileC10 : Tile :=
  { altitude := 2000, baseLuminosity := 1, heat := 0, tileCover := TileCover.Rock,
    biomass := { total := 0, prokaryote := 0 } }

/-- The C10 counterexample state. -/
def stateC10 : WorldState :=
  { atmosphere := { nitrogen := 0, oxygen := 0, carbonDioxide := 0, methane := 0, waterVapour := 0 },
    tiles := fun _ _ => rockTileC10,
    biomass := { total := 0, prokaryote := 0 } }

/-- A uniform zeroed tile used by witnesses. -/
def witTile : Tile :=
  { altitude := 0, baseLuminosity := 0, heat := 0, tileCover := TileCover.NotComputed,
    biomass := { total := 0, prokaryote := 0 } }

/-- A uniform zeroed world state used by witnesses. -/
def witState : WorldState :=
  { atmosphere := { nitrogen := 0, oxygen := 0, carbonDioxide := 0, methane := 0, waterVapour := 0 },
    tiles := fun _ _ => witTile,
    biomass := { total := 0, prokaryote := 0 } }

end EarthSim

namespace EarthSim

/-! ### Basic lemmas about grid cell updates -/

theorem setTile_eval (g : Grid) (x y : ℕ) (t : Tile) (a b : ℕ) :
    setTile g x y t a b = if a = x ∧ b = y then t else g a b := rfl

@[simp]
theorem setTile_self (g : Grid) (x y : ℕ) (t : Tile) : setTile g x y t x y = t := by
  simp [setTile]

theorem setTile_of_ne (g : Grid) (x y : ℕ) (t : Tile) {a b : ℕ} (h : ¬(a = x ∧ b = y)) :
    setTile g x y t a b = g a b := by
  simp [setTile, h]

@[simp]
theorem setHeat_altitude (g : Grid) (x y : ℕ) (h : ℚ) (a b : ℕ) :
    (setHeat g x y h a b).altitude = (g a b).altitude := by
  unfold setHeat setTile
  by_cases hab : a = x ∧ b = y
  · obtain ⟨rfl, rfl⟩ := hab; simp
  · simp [hab]

@[simp]
theorem setHeat_baseLuminosity (g : Grid) (x y : ℕ) (h : ℚ) (a b : ℕ) :
    (setHeat g x y h a b).baseLuminosity = (g a b).baseLuminosity := by
  unfold setHeat setTile
  by_cases hab : a = x ∧ b = y
  · obtain ⟨rfl, rfl⟩ := hab; simp
  · simp [hab]

@[simp]
theorem setHeat_tileCover (g : Grid) (x y : ℕ) (h : ℚ) (a b : ℕ) :
    (setHeat g x y h a b).tileCover = (g a b).tileCover := by
  unfold setHeat setTile
  by_cases hab : a = x ∧ b = y
  · obtain ⟨rfl, rfl⟩ := hab; simp
  · simp [hab]

@[simp]
theorem setHeat_biomass (g : Grid) (x y : ℕ) (h : ℚ) (a b : ℕ) :
    (setHeat g x y h a b).biomass = (g a b).biomass := by
  unfold setHeat setTile
  by_cases hab : a = x ∧ b = y
  · obtain ⟨rfl, rfl⟩ := hab; simp
  · simp [hab]

theorem setHeat_heat (g : Grid) (x y : ℕ) (h : ℚ) (a b : ℕ) :
    (setHeat g x y h a b).heat = if a = x ∧ b = y then h else (g a b).heat := by
  unfold setHeat setTile
  by_cases hab : a = x ∧ b = y
  · obtain ⟨rfl, rfl⟩ := hab; simp
  · simp [hab]

@[simp]
theorem setProk_altitude (g : Grid) (x y : ℕ) (p : ℚ) (a b : ℕ) :
    (setProk g x y p a b).altitude = (g a b).altitude := by
  unfold setProk setTile
  by_cases hab : a = x ∧ b = y
  · obtain ⟨rfl, rfl⟩ := hab; simp
  · simp [hab]

@[simp]
theorem setProk_baseLuminosity (g : Grid) (x y : ℕ) (p : ℚ) (a b : ℕ) :
    (setProk g x y p a b).baseLuminosity = (g a b).baseLuminosity := by
  unfold setProk setTile
  by_cases hab : a = x ∧ b = y
  · obtain ⟨rfl, rfl⟩ := hab; simp
  · simp [hab]

@[simp]
theorem setProk_heat (g : Grid) (x y : ℕ) (p : ℚ) (a b : ℕ) :
    (setProk g x y p a b).heat = (g a b).heat := by
  unfold setProk setTile
  by_cases hab : a = x ∧ b = y
  · obtain ⟨rfl, rfl⟩ := hab; simp
  · simp [hab]

@[simp]
theorem setProk_tileCover (g : Grid) (x y : ℕ) (p : ℚ) (a b : ℕ) :
    (setProk g x y p a b).tileCover = (g a b).tileCover := by
  unfold setProk setTile
  by_cases hab : a = x ∧ b = y
  · obtain ⟨rfl, rfl⟩ := hab; simp
  · simp [hab]

@[simp]
theorem setProk_total (g : Grid) (x y : ℕ) (p : ℚ) (a b : ℕ) :
    (setProk g x y p a b).biomass.total = (g a b).biomass.total := by
  unfold setProk setTile
  by_cases hab : a = x ∧ b = y
  · obtain ⟨rfl, rfl⟩ := hab; simp
  · simp [hab]

theorem setProk_prokaryote (g : Grid) (x y : ℕ) (p : ℚ) (a b : ℕ) :
    (setProk g x y p a b).biomass.prokaryote =
      if a = x ∧ b = y then p else (g a b).biomass.prokaryote := by
  unfold setProk setTile
  by_cases hab : a = x ∧ b = y
  · obtain ⟨rfl, rfl⟩ := hab; simp
  · simp [hab]

@[simp]
theorem raiseTile_baseLuminosity (g : Grid) (x y : ℕ) (m : ℚ) (a b : ℕ) :
    (raiseTile g x y m a b).baseLuminosity = (g a b).baseLuminosity := by
  unfold raiseTile setTile
  by_cases hab : a = x ∧ b = y
  · obtain ⟨rfl, rfl⟩ := hab; simp
  · simp [hab]

@[simp]
theorem raiseTile_heat (g : Grid) (x y : ℕ) (m : ℚ) (a b : ℕ) :
    (raiseTile g x y m a b).heat = (g a b).heat := by
  unfold raiseTile setTile
  by_cases hab : a = x ∧ b = y
  · obtain ⟨rfl, rfl⟩ := hab; simp
  · simp [hab]

@[simp]
theorem raiseTile_tileCover (g : Grid) (x y : ℕ) (m : ℚ) (a b : ℕ) :
    (raiseTile g x y m a b).tileCover = (g a b).tileCover := by
  unfold raiseTile setTile
  by_cases hab : a = x ∧ b = y
  · obtain ⟨rfl, rfl⟩ := hab; simp
  · simp [hab]

@[simp]
theorem raiseTile_biomass (g : Grid) (x y : ℕ) (m : ℚ) (a b : ℕ) :
    (raiseTile g x y m a b).biomass = (g a b).biomass := by
  unfold raiseTile setTile
  by_cases hab : a = x ∧ b = y
  · obtain ⟨rfl, rfl⟩ := hab; simp
  · simp [hab]

/-! ### Generic fold lemmas and the iteration orders -/

theorem foldl_hold {α β : Type _} (f : α → β → α) (P : α → Prop) :
    ∀ (l : List β) (a : α), (∀ x b, P x → P (f x b)) → P a → P (l.foldl f a)
  | [], _, _, ha => ha
  | b :: l, a, h, ha => foldl_hold f P l _ h (h a b ha)

theorem mem_tileOrder {x y : ℕ} : (x, y) ∈ tileOrder ↔ x < worldWidth ∧ y < worldHeight := by
  unfold tileOrder
  rw [List.mem_flatMap]
  constructor
  · rintro ⟨a, ha, hmem⟩
    obtain ⟨b, hb, hpair⟩ := List.mem_map.mp hmem
    obtain ⟨rfl, rfl⟩ := Prod.mk.injEq .. ▸ hpair
    exact ⟨List.mem_range.mp ha, List.mem_range.mp hb⟩
  · rintro ⟨hx, hy⟩
    exact ⟨x, List.mem_range.mpr hx,
      List.mem_map.mpr ⟨y, List.mem_range.mpr hy, rfl⟩⟩

theorem mem_volcanoOffsets {x y : ℕ} :
    (x, y) ∈ volcanoOffsets ↔ x < volcanoDiameter ∧ y < volcanoDiameter := by
  unfold volcanoOffsets
  rw [List.mem_flatMap]
  constructor
  · rintro ⟨a, ha, hmem⟩
    obtain ⟨b, hb, hpair⟩ := List.mem_map.mp hmem
    obtain ⟨rfl, rfl⟩ := Prod.mk.injEq .. ▸ hpair
    exact ⟨List.mem_range.mp ha, List.mem_range.mp hb⟩
  · rintro ⟨hx, hy⟩
    exact ⟨x, List.mem_range.mpr hx,
      List.mem_map.mpr ⟨y, List.mem_range.mpr hy, rfl⟩⟩

theorem volcanoOffsets_nodup : volcanoOffsets.Nodup := by decide

end EarthSim

namespace EarthSim

/-! ### Frame lemmas for the diffusion steps -/

theorem transferHeat_keeps (g : Grid) (x y a b : ℕ) :
    ((transferHeat g x y) a b).altitude = (g a b).altitude ∧
    ((transferHeat g x y) a b).baseLuminosity = (g a b).baseLuminosity ∧
    ((transferHeat g x y) a b).tileCover = (g a b).tileCover ∧
    ((transferHeat g x y) a b).biomass = (g a b).biomass := by
  unfold transferHeat
  split <;> simp

theorem heatPass_keeps (g : Grid) : ∀ a b,
    ((heatPass g) a b).altitude = (g a b).altitude ∧
    ((heatPass g) a b).baseLuminosity = (g a b).baseLuminosity ∧
    ((heatPass g) a b).tileCover = (g a b).tileCover ∧
    ((heatPass g) a b).biomass = (g a b).biomass := by
  unfold heatPass
  refine foldl_hold _
    (fun g2 => ∀ a b,
      (g2 a b).altitude = (g a b).altitude ∧
      (g2 a b).baseLuminosity = (g a b).baseLuminosity ∧
      (g2 a b).tileCover = (g a b).tileCover ∧
      (g2 a b).biomass = (g a b).biomass)
    tileOrder g ?_ (fun a b => ⟨rfl, rfl, rfl, rfl⟩)
  intro g1 p hP a b
  obtain ⟨h1, h2, h3, h4⟩ := hP a b
  obtain ⟨k1, k2, k3, k4⟩ := transferHeat_keeps g1 p.1 p.2 a b
  exact ⟨k1.trans h1, k2.trans h2, k3.trans h3, k4.trans h4⟩

theorem transferProkHorizontal_keeps (g : Grid) (x y a b : ℕ) :
    ((transferProkHorizontal g x y) a b).altitude = (g a b).altitude ∧
    ((transferProkHorizontal g x y) a b).baseLuminosity = (g a b).baseLuminosity ∧
    ((transferProkHorizontal g x y) a b).heat = (g a b).heat ∧
    ((transferProkHorizontal g x y) a b).tileCover = (g a b).tileCover ∧
    ((transferProkHorizontal g x y) a b).biomass.total = (g a b).biomass.total := by
  unfold transferProkHorizontal
  split <;> simp

theorem transferProkVertical_keeps (g : Grid) (x y a b : ℕ) :
    ((transferProkVertical g x y) a b).altitude = (g a b).altitude ∧
    ((transferProkVertical g x y) a b).baseLuminosity = (g a b).baseLuminosity ∧
    ((transferProkVertical g x y) a b).heat = (g a b).heat ∧
    ((transferProkVertical g x y) a b).tileCover = (g a b).tileCover ∧
    ((transferProkVertical g x y) a b).biomass.total = (g a b).biomass.total := by
  unfold transferProkVertical
  split
  · split <;> simp
  · exact ⟨rfl, rfl, rfl, rfl, rfl⟩

theorem transferProkaryotes_keeps (g : Grid) (x y a b : ℕ) :
    ((transferProkaryotes g x y) a b).altitude = (g a b).altitude ∧
    ((transferProkaryotes g x y) a b).baseLuminosity = (g a b).baseLuminosity ∧
    ((transferProkaryotes g x y) a b).heat = (g a b).heat ∧
    ((transferProkaryotes g x y) a b).tileCover = (g a b).tileCover ∧
    ((transferProkaryotes g x y) a b).biomass.total = (g a b).biomass.total := by
  unfold transferProkaryotes
  split
  · obtain ⟨h1, h2, h3, h4, h5⟩ := transferProkHorizontal_keeps g x y a b
    obtain ⟨k1, k2, k3, k4, k5⟩ :=
      transferProkVertical_keeps (transferProkHorizontal g x y) x y a b
    exact ⟨k1.trans h1, k2.trans h2, k3.trans h3, k4.trans h4, k5.trans h5⟩
  · exact ⟨rfl, rfl, rfl, rfl, rfl⟩

theorem setProk_prok_nonneg {g : Grid} {x y : ℕ} {p : ℚ}
    (h : ∀ a b, 0 ≤ (g a b).biomass.prokaryote) (hp : 0 ≤ p) :
    ∀ a b, 0 ≤ ((setProk g x y p) a b).biomass.prokaryote := by
  intro a b
  rw [setProk_prokaryote]
  split
  · exact hp
  · exact h a b

theorem avg_nonneg {p q : ℚ} (hp : 0 ≤ p) (hq : 0 ≤ q) : 0 ≤ (p + q) / 2 := by
  positivity

theorem transferProkHorizontal_prok_nonneg {g : Grid} (x y : ℕ)
    (h : ∀ a b, 0 ≤ (g a b).biomass.prokaryote) :
    ∀ a b, 0 ≤ ((transferProkHorizontal g x y) a b).biomass.prokaryote := by
  unfold transferProkHorizontal
  split
  · exact setProk_prok_nonneg (setProk_prok_nonneg h (avg_nonneg (h x y) (h _ y)))
      (avg_nonneg (h x y) (h _ y))
  · exact h

theorem transferProkVertical_prok_nonneg {g : Grid} (x y : ℕ)
    (h : ∀ a b, 0 ≤ (g a b).biomass.prokaryote) :
    ∀ a b, 0 ≤ ((transferProkVertical g x y) a b).biomass.prokaryote := by
  unfold transferProkVertical
  split
  · split
    · exact setProk_prok_nonneg (setProk_prok_nonneg h (avg_nonneg (h x y) (h x (y + 1))))
        (avg_nonneg (h x y) (h x (y + 1)))
    · exact h
  · exact h

theorem transferProkaryotes_prok_nonneg {g : Grid} (x y : ℕ)
    (h : ∀ a b, 0 ≤ (g a b).biomass.prokaryote) :
    ∀ a b, 0 ≤ ((transferProkaryotes g x y) a b).biomass.prokaryote := by
  unfold transferProkaryotes
  split
  · exact transferProkVertical_prok_nonneg x y (transferProkHorizontal_prok_nonneg x y h)
  · exact h

end EarthSim

namespace EarthSim

/-! ### Lemmas about the building blocks of the per-tile closure -/

theorem erodeAndHeatTile_keeps (htf : ℚ) (t : Tile) :
    (erodeAndHeatTile htf t).baseLuminosity = t.baseLuminosity ∧
    (erodeAndHeatTile htf t).tileCover = t.tileCover ∧
    (erodeAndHeatTile htf t).biomass = t.biomass :=
  ⟨rfl, rfl, rfl⟩

theorem erodeAndHeatTile_altitude (htf : ℚ) (t : Tile) :
    (erodeAndHeatTile htf t).altitude = max (t.altitude - erosionRate) 0 := rfl

theorem emitTileGas_nitrogen (a : Atmosphere) (c : TileCover) :
    (emitTileGas a c).nitrogen = a.nitrogen := by
  unfold emitTileGas; split_ifs <;> rfl

theorem emitTileGas_methane (a : Atmosphere) (c : TileCover) :
    (emitTileGas a c).methane = a.methane := by
  unfold emitTileGas; split_ifs <;> rfl

theorem emitTileGas_oxygen (a : Atmosphere) (c : TileCover) :
    (emitTileGas a c).oxygen = a.oxygen := by
  unfold emitTileGas; split_ifs <;> rfl

theorem emitTileGas_waterVapour (a : Atmosphere) (c : TileCover) :
    (emitTileGas a c).waterVapour =
      a.waterVapour + (if c = TileCover.Water then waterVaporPerOceanTile else 0) := by
  unfold emitTileGas; split_ifs <;> simp

theorem emitTileGas_carbonDioxide (a : Atmosphere) (c : TileCover) :
    (emitTileGas a c).carbonDioxide =
      a.carbonDioxide + (if c = TileCover.Rock then carbonPerLandTile else 0) := by
  unfold emitTileGas
  rcases c <;> simp

theorem abiogenesisStep_keeps (r : ℚ) (t : Tile) :
    (abiogenesisStep r t).altitude = t.altitude ∧
    (abiogenesisStep r t).baseLuminosity = t.baseLuminosity ∧
    (abiogenesisStep r t).heat = t.heat ∧
    (abiogenesisStep r t).tileCover = t.tileCover := by
  unfold abiogenesisStep; split_ifs <;> exact ⟨rfl, rfl, rfl, rfl⟩

theorem abiogenesisStep_biomass (r : ℚ) (t : Tile) :
    (abiogenesisStep r t).biomass = t.biomass ∨
    (abiogenesisStep r t).biomass = { total := 1, prokaryote := 1 } := by
  unfold abiogenesisStep; split_ifs <;> simp

theorem abiogenesisStep_prok_nonneg {r : ℚ} {t : Tile}
    (h : 0 ≤ t.biomass.prokaryote) : 0 ≤ (abiogenesisStep r t).biomass.prokaryote := by
  rcases abiogenesisStep_biomass r t with hb | hb <;> rw [hb]
  · exact h
  · norm_num

theorem applyBiomass_tile (t : Tile) (tA a : Atmosphere) (gl : Biomass) :
    (applyBiomass t tA a gl).1 =
      { t with biomass :=
        { total := grownProkaryote t tA, prokaryote := grownProkaryote t tA } } := rfl

theorem applyBiomass_atm (t : Tile) (tA a : Atmosphere) (gl : Biomass) :
    (applyBiomass t tA a gl).2.1 =
      { a with
        carbonDioxide := a.carbonDioxide - grownProkaryote t tA * carbonPerPhotosyntheticBiomass
        oxygen := a.oxygen + grownProkaryote t tA * oxygenPerPhotosyntheticBiomass } := rfl

theorem grownProkaryote_nonneg {t : Tile} {tA : Atmosphere}
    (hco2 : 0 ≤ tA.carbonDioxide) (hp : 0 ≤ t.biomass.prokaryote)
    (hl : 0 ≤ t.baseLuminosity) : 0 ≤ grownProkaryote t tA := by
  have hrate : 0 ≤ min (tA.carbonDioxide * prokaryoteReproductionRate) prokaryoteReproductionRate := by
    refine le_min (mul_nonneg hco2 ?_) ?_ <;> norm_num [prokaryoteReproductionRate]
  have hcap : 0 ≤ t.baseLuminosity * fullLuminosityHeat * photosynthticBiomassPerEnergy := by
    refine mul_nonneg (mul_nonneg hl ?_) ?_ <;>
      norm_num [fullLuminosityHeat, photosynthticBiomassPerEnergy]
  unfold grownProkaryote survivingBiomass
  split
  · exact le_min (by simp) hcap
  · exact le_min (add_nonneg hp (mul_nonneg hp hrate)) hcap

/-! ### Structural identities for the per-tile closure -/

theorem localStep_atmosphere (tA : Atmosphere) (htf : ℚ) (rand : ℕ → ℕ → ℚ)
    (s : WorldState) (p : ℕ × ℕ) :
    (localStep tA htf rand s p).atmosphere =
      (applyBiomass (abiogenesisStep (rand p.1 p.2) (erodeAndHeatTile htf (s.tiles p.1 p.2))) tA
        (emitTileGas s.atmosphere (erodeAndHeatTile htf (s.tiles p.1 p.2)).tileCover)
        s.biomass).2.1 := rfl

theorem localStep_tiles (tA : Atmosphere) (htf : ℚ) (rand : ℕ → ℕ → ℚ)
    (s : WorldState) (p : ℕ × ℕ) :
    (localStep tA htf rand s p).tiles =
      transferProkaryotes
        (setTile s.tiles p.1 p.2
          (applyBiomass (abiogenesisStep (rand p.1 p.2) (erodeAndHeatTile htf (s.tiles p.1 p.2))) tA
            (emitTileGas s.atmosphere (erodeAndHeatTile htf (s.tiles p.1 p.2)).tileCover)
            s.biomass).1)
        p.1 p.2 := rfl

end EarthSim

namespace EarthSim

/-- The master frame-and-invariant lemma for one iteration of the per-tile
closure of tick. -/
theorem localStep_master (tA : Atmosphere) (htf : ℚ) (rand : ℕ → ℕ → ℚ)
    (s : WorldState) (p : ℕ × ℕ)
    (hco2 : 0 ≤ tA.carbonDioxide)
    (hbio : ∀ a b, 0 ≤ (s.tiles a b).biomass.prokaryote ∧ 0 ≤ (s.tiles a b).biomass.total ∧
      0 ≤ (s.tiles a b).baseLuminosity) :
    (∀ a b, 0 ≤ ((localStep tA htf rand s p).tiles a b).biomass.prokaryote ∧
      0 ≤ ((localStep tA htf rand s p).tiles a b).biomass.total ∧
      0 ≤ ((localStep tA htf rand s p).tiles a b).baseLuminosity) ∧
    (∀ a b, ((localStep tA htf rand s p).tiles a b).tileCover = (s.tiles a b).tileCover) ∧
    (localStep tA htf rand s p).atmosphere.nitrogen = s.atmosphere.nitrogen ∧
    (localStep tA htf rand s p).atmosphere.methane = s.atmosphere.methane ∧
    s.atmosphere.oxygen ≤ (localStep tA htf rand s p).atmosphere.oxygen ∧
    (localStep tA htf rand s p).atmosphere.waterVapour = s.atmosphere.waterVapour +
      (if (s.tiles p.1 p.2).tileCover = TileCover.Water then waterVaporPerOceanTile else 0) ∧
    ((s.tiles p.1 p.2).tileCover ≠ TileCover.Rock →
      (localStep tA htf rand s p).atmosphere.carbonDioxide ≤ s.atmosphere.carbonDioxide) := by
  have ht2cover : (erodeAndHeatTile htf (s.tiles p.1 p.2)).tileCover = (s.tiles p.1 p.2).tileCover :=
    (erodeAndHeatTile_keeps htf _).2.1
  have ht3 := abiogenesisStep_keeps (rand p.1 p.2) (erodeAndHeatTile htf (s.tiles p.1 p.2))
  have ht3prok : 0 ≤ (abiogenesisStep (rand p.1 p.2)
      (erodeAndHeatTile htf (s.tiles p.1 p.2))).biomass.prokaryote := by
    refine abiogenesisStep_prok_nonneg ?_
    have : (erodeAndHeatTile htf (s.tiles p.1 p.2)).biomass = (s.tiles p.1 p.2).biomass :=
      (erodeAndHeatTile_keeps htf _).2.2
    rw [this]
    exact (hbio p.1 p.2).1
  have ht3lum : 0 ≤ (abiogenesisStep (rand p.1 p.2)
      (erodeAndHeatTile htf (s.tiles p.1 p.2))).baseLuminosity := by
    rw [ht3.2.1, (erodeAndHeatTile_keeps htf _).1]
    exact (hbio p.1 p.2).2.2
  have hp2 : 0 ≤ grownProkaryote
      (abiogenesisStep (rand p.1 p.2) (erodeAndHeatTile htf (s.tiles p.1 p.2))) tA :=
    grownProkaryote_nonneg hco2 ht3prok ht3lum
  refine ⟨?_, ?_, ?_, ?_, ?_, ?_, ?_⟩
  · -- nonnegativity of biomass and luminosity on every cell
    intro a b
    rw [localStep_tiles]
    set g1 := setTile s.tiles p.1 p.2
      (applyBiomass (abiogenesisStep (rand p.1 p.2) (erodeAndHeatTile htf (s.tiles p.1 p.2))) tA
        (emitTileGas s.atmosphere (erodeAndHeatTile htf (s.tiles p.1 p.2)).tileCover)
        s.biomass).1 with hg1
    have hg1facts : ∀ a b, 0 ≤ (g1 a b).biomass.prokaryote ∧ 0 ≤ (g1 a b).biomass.total ∧
        0 ≤ (g1 a b).baseLuminosity := by
      intro a b
      rw [hg1]
      by_cases hab : a = p.1 ∧ b = p.2
      · obtain ⟨rfl, rfl⟩ := hab
        rw [setTile_self, applyBiomass_tile]
        exact ⟨hp2, hp2, ht3lum⟩
      · rw [setTile_of_ne _ _ _ _ hab]
        exact hbio a b
    have hprok := transferProkaryotes_prok_nonneg p.1 p.2 (fun a b => (hg1facts a b).1) a b
    obtain ⟨-, hlum, -, -, htot⟩ := transferProkaryotes_keeps g1 p.1 p.2 a b
    exact ⟨hprok, htot ▸ (hg1facts a b).2.1, hlum ▸ (hg1facts a b).2.2⟩
  · -- covers everywhere preserved
    intro a b
    rw [localStep_tiles]
    obtain ⟨-, -, -, hcov, -⟩ := transferProkaryotes_keeps _ p.1 p.2 a b
    rw [hcov]
    by_cases hab : a = p.1 ∧ b = p.2
    · obtain ⟨rfl, rfl⟩ := hab
      rw [setTile_self, applyBiomass_tile]
      exact ht3.2.2.2.trans ht2cover
    · rw [setTile_of_ne _ _ _ _ hab]
  · rw [localStep_atmosphere, applyBiomass_atm]
    exact emitTileGas_nitrogen _ _
  · rw [localStep_atmosphere, applyBiomass_atm]
    exact emitTileGas_methane _ _
  · rw [localStep_atmosphere, applyBiomass_atm]
    show s.atmosphere.oxygen ≤ _ + _
    rw [emitTileGas_oxygen]
    have : 0 ≤ grownProkaryote _ tA * oxygenPerPhotosyntheticBiomass :=
      mul_nonneg hp2 (by norm_num [oxygenPerPhotosyntheticBiomass])
    linarith
  · rw [localStep_atmosphere, applyBiomass_atm]
    show (emitTileGas s.atmosphere _).waterVapour = _
    rw [emitTileGas_waterVapour, ht2cover]
  · intro hrock
    rw [localStep_atmosphere, applyBiomass_atm]
    show _ - _ ≤ s.atmosphere.carbonDioxide
    rw [emitTileGas_carbonDioxide, ht2cover, if_neg hrock]
    have : 0 ≤ grownProkaryote _ tA * carbonPerPhotosyntheticBiomass :=
      mul_nonneg hp2 (by norm_num [carbonPerPhotosyntheticBiomass])
    linarith

end EarthSim

namespace EarthSim

/-- The fold of the per-tile closure over any coordinate list: biomass
nonnegativity and covers are preserved, nitrogen and methane are untouched,
oxygen never decreases, water vapour gains exactly waterVaporPerOceanTile
per water-covered listed coordinate, and carbon dioxide never increases
when no tile is rock-covered. -/
theorem tileFold_master (tA : Atmosphere) (htf : ℚ) (rand : ℕ → ℕ → ℚ)
    (hco2 : 0 ≤ tA.carbonDioxide) :
    ∀ (l : List (ℕ × ℕ)) (s : WorldState),
      (∀ a b, 0 ≤ (s.tiles a b).biomass.prokaryote ∧ 0 ≤ (s.tiles a b).biomass.total ∧
        0 ≤ (s.tiles a b).baseLuminosity) →
      (∀ a b, 0 ≤ ((List.foldl (localStep tA htf rand) s l).tiles a b).biomass.prokaryote ∧
        0 ≤ ((List.foldl (localStep tA htf rand) s l).tiles a b).biomass.total ∧
        0 ≤ ((List.foldl (localStep tA htf rand) s l).tiles a b).baseLuminosity) ∧
      (∀ a b, ((List.foldl (localStep tA htf rand) s l).tiles a b).tileCover =
        (s.tiles a b).tileCover) ∧
      (List.foldl (localStep tA htf rand) s l).atmosphere.nitrogen = s.atmosphere.nitrogen ∧
      (List.foldl (localStep tA htf rand) s l).atmosphere.methane = s.atmosphere.methane ∧
      s.atmosphere.oxygen ≤ (List.foldl (localStep tA htf rand) s l).atmosphere.oxygen ∧
      (List.foldl (localStep tA htf rand) s l).atmosphere.waterVapour =
        s.atmosphere.waterVapour + waterVaporPerOceanTile *
          (l.countP (fun p => decide ((s.tiles p.1 p.2).tileCover = TileCover.Water)) : ℚ) ∧
      ((∀ a b, (s.tiles a b).tileCover ≠ TileCover.Rock) →
        (List.foldl (localStep tA htf rand) s l).atmosphere.carbonDioxide ≤
          s.atmosphere.carbonDioxide)
  | [], s, h => by
    refine ⟨h, fun a b => rfl, rfl, rfl, le_refl _, by simp, fun _ => le_refl _⟩
  | p :: l, s, h => by
    obtain ⟨m1, m2, m3, m4, m5, m6, m7⟩ := localStep_master tA htf rand s p hco2 h
    obtain ⟨k1, k2, k3, k4, k5, k6, k7⟩ :=
      tileFold_master tA htf rand hco2 l (localStep tA htf rand s p) m1
    refine ⟨k1, fun a b => (k2 a b).trans (m2 a b), k3.trans m3, k4.trans m4,
      le_trans m5 k5, ?_, ?_⟩
    · rw [List.foldl_cons] at *
      rw [k6, m6, List.countP_cons]
      have hcong : (l.countP (fun q =>
            decide (((localStep tA htf rand s p).tiles q.1 q.2).tileCover = TileCover.Water))) =
          (l.countP (fun q => decide ((s.tiles q.1 q.2).tileCover = TileCover.Water))) := by
        refine List.countP_congr ?_
        intro q hq
        simp only [decide_eq_true_eq]
        rw [m2 q.1 q.2]
      rw [hcong]
      by_cases hw : (s.tiles p.1 p.2).tileCover = TileCover.Water
      · rw [if_pos hw, if_pos (by simpa using hw)]
        push_cast
        ring
      · rw [if_neg hw, if_neg (by simpa using hw)]
        push_cast
        ring
    · intro hnr
      have hnr2 : ∀ a b, ((localStep tA htf rand s p).tiles a b).tileCover ≠ TileCover.Rock :=
        fun a b => (m2 a b).symm ▸ hnr a b
      exact le_trans (k7 hnr2) (m7 (hnr p.1 p.2))

end EarthSim

namespace EarthSim

/-! ### The reclassification pass -/

theorem computeTileCover_congr {t u : Tile} (halt : t.altitude = u.altitude)
    (hheat : t.heat = u.heat) : computeTileCover t = computeTileCover u := by
  unfold computeTileCover
  rw [halt, hheat]

theorem reclassifyFold_keeps :
    ∀ (l : List (ℕ × ℕ)) (g : Grid) (a b : ℕ),
      ((l.foldl (fun g2 p => setTile g2 p.1 p.2
          { g2 p.1 p.2 with tileCover := computeTileCover (g2 p.1 p.2) }) g) a b).altitude =
        (g a b).altitude ∧
      ((l.foldl (fun g2 p => setTile g2 p.1 p.2
          { g2 p.1 p.2 with tileCover := computeTileCover (g2 p.1 p.2) }) g) a b).baseLuminosity =
        (g a b).baseLuminosity ∧
      ((l.foldl (fun g2 p => setTile g2 p.1 p.2
          { g2 p.1 p.2 with tileCover := computeTileCover (g2 p.1 p.2) }) g) a b).heat =
        (g a b).heat ∧
      ((l.foldl (fun g2 p => setTile g2 p.1 p.2
          { g2 p.1 p.2 with tileCover := computeTileCover (g2 p.1 p.2) }) g) a b).biomass =
        (g a b).biomass
  | [], g, a, b => ⟨rfl, rfl, rfl, rfl⟩
  | p :: l, g, a, b => by
    rw [List.foldl_cons]
    obtain ⟨k1, k2, k3, k4⟩ := reclassifyFold_keeps l
      (setTile g p.1 p.2 { g p.1 p.2 with tileCover := computeTileCover (g p.1 p.2) }) a b
    by_cases hab : a = p.1 ∧ b = p.2
    · obtain ⟨rfl, rfl⟩ := hab
      rw [k1, k2, k3, k4, setTile_self]
      exact ⟨rfl, rfl, rfl, rfl⟩
    · rw [k1, k2, k3, k4, setTile_of_ne _ _ _ _ hab]
      exact ⟨rfl, rfl, rfl, rfl⟩

theorem reclassifyFold_cover_of_notMem :
    ∀ (l : List (ℕ × ℕ)) (g : Grid) (a b : ℕ), (a, b) ∉ l →
      ((l.foldl (fun g2 p => setTile g2 p.1 p.2
          { g2 p.1 p.2 with tileCover := computeTileCover (g2 p.1 p.2) }) g) a b).tileCover =
        (g a b).tileCover
  | [], g, a, b, _ => rfl
  | p :: l, g, a, b, hmem => by
    rw [List.foldl_cons]
    have hne : (a, b) ≠ p := fun h => hmem (h ▸ List.mem_cons_self p l)
    have htail : (a, b) ∉ l := fun h => hmem (List.mem_cons_of_mem p h)
    rw [reclassifyFold_cover_of_notMem l _ a b htail,
      setTile_of_ne _ _ _ _ (by
        rintro ⟨rfl, rfl⟩
        exact hne rfl)]

theorem reclassifyFold_cover_of_mem :
    ∀ (l : List (ℕ × ℕ)) (g : Grid) (a b : ℕ), (a, b) ∈ l →
      ((l.foldl (fun g2 p => setTile g2 p.1 p.2
          { g2 p.1 p.2 with tileCover := computeTileCover (g2 p.1 p.2) }) g) a b).tileCover =
        computeTileCover
          ((l.foldl (fun g2 p => setTile g2 p.1 p.2
            { g2 p.1 p.2 with tileCover := computeTileCover (g2 p.1 p.2) }) g) a b)
  | [], _, a, b, hmem => absurd hmem (List.not_mem_nil (a, b))
  | p :: l, g, a, b, hmem => by
    rw [List.foldl_cons]
    by_cases htail : (a, b) ∈ l
    · exact reclassifyFold_cover_of_mem l _ a b htail
    · have hp : (a, b) = p := by
        rcases List.mem_cons.mp hmem with h | h
        · exact h
        · exact absurd h htail
      subst hp
      dsimp only
      obtain ⟨k1, _, k3, _⟩ := reclassifyFold_keeps l
        (setTile g a b { g a b with tileCover := computeTileCover (g a b) }) a b
      rw [reclassifyFold_cover_of_notMem l _ a b htail, setTile_self]
      exact (computeTileCover_congr (by rw [k1, setTile_self]) (by rw [k3, setTile_self])).symm

theorem reclassifyPass_cover_of_mem (g : Grid) (a b : ℕ)
    (ha : a < worldWidth) (hb : b < worldHeight) :
    ((reclassifyPass g) a b).tileCover = computeTileCover ((reclassifyPass g) a b) :=
  reclassifyFold_cover_of_mem tileOrder g a b (mem_tileOrder.mpr ⟨ha, hb⟩)

theorem reclassifyPass_keeps (g : Grid) (a b : ℕ) :
    ((reclassifyPass g) a b).altitude = (g a b).altitude ∧
    ((reclassifyPass g) a b).baseLuminosity = (g a b).baseLuminosity ∧
    ((reclassifyPass g) a b).heat = (g a b).heat ∧
    ((reclassifyPass g) a b).biomass = (g a b).biomass :=
  reclassifyFold_keeps tileOrder g a b

/-! ### Structural identities for tick -/

theorem tilePass_def (tA : Atmosphere) (htf : ℚ) (rand : ℕ → ℕ → ℚ) (s : WorldState) :
    tilePass tA htf rand s = tileOrder.foldl (localStep tA htf rand) s := rfl

theorem finishTiles_atmosphere (s1 : WorldState) :
    (finishTiles s1).atmosphere = s1.atmosphere := by
  simp only [finishTiles]

theorem finishTiles_tiles (s1 : WorldState) :
    (finishTiles s1).tiles = reclassifyPass (heatPass s1.tiles) := by
  simp only [finishTiles]

theorem tick_def (sq : ℕ → ℚ) (vx vy : ℕ) (vr : ℚ) (rand : ℕ → ℕ → ℚ) (s : WorldState) :
    tick sq vx vy vr rand s = finishTiles (tickTilePhase sq vx vy vr rand s) := by
  simp only [tick]

theorem tickTilePhase_def (sq : ℕ → ℚ) (vx vy : ℕ) (vr : ℚ) (rand : ℕ → ℕ → ℚ)
    (s : WorldState) :
    tickTilePhase sq vx vy vr rand s =
      tileOrder.foldl
        (localStep (computeTileAtmosphere (decayAtmosphere s.atmosphere))
          (computeHeatTrappingFactor (computeTileAtmosphere (decayAtmosphere s.atmosphere))) rand)
        (preparedState sq vx vy vr s) := by
  unfold tickTilePhase tilePass
  rfl

end EarthSim

namespace EarthSim

/-! ### The eruption -/

theorem eruptVolcano_def (sq : ℕ → ℚ) (bx cy : ℕ) (r : ℚ) (g : Grid) :
    eruptVolcano sq bx cy r g = volcanoOffsets.foldl (fun g2 off =>
      if bx + off.1 < worldWidth ∧ cy + off.2 < worldHeight then
        raiseTile g2 (bx + off.1) (cy + off.2)
          (volcanoSpread sq (volcanoUpthrust r) off.1 off.2)
      else g2) g := rfl

theorem volcanoFold_frame (sq : ℕ → ℚ) (u : ℚ) (bx cy : ℕ) :
    ∀ (l : List (ℕ × ℕ)) (g : Grid) (a b : ℕ),
      (∀ off ∈ l, ¬(bx + off.1 = a ∧ cy + off.2 = b)) →
      (l.foldl (fun g2 off =>
        if bx + off.1 < worldWidth ∧ cy + off.2 < worldHeight then
          raiseTile g2 (bx + off.1) (cy + off.2) (volcanoSpread sq u off.1 off.2)
        else g2) g) a b = g a b
  | [], _, _, _, _ => rfl
  | off :: l, g, a, b, h => by
    rw [List.foldl_cons,
      volcanoFold_frame sq u bx cy l _ a b (fun o ho => h o (List.mem_cons_of_mem off ho))]
    split
    · exact setTile_of_ne _ _ _ _
        (fun hab => h off (List.mem_cons_self off l) ⟨hab.1.symm, hab.2.symm⟩)
    · rfl

theorem volcanoFold_altitude (sq : ℕ → ℚ) (u : ℚ) (bx cy : ℕ) :
    ∀ (l : List (ℕ × ℕ)) (g : Grid) (a b : ℕ), l.Nodup →
      ((l.foldl (fun g2 off =>
        if bx + off.1 < worldWidth ∧ cy + off.2 < worldHeight then
          raiseTile g2 (bx + off.1) (cy + off.2) (volcanoSpread sq u off.1 off.2)
        else g2) g) a b).altitude =
      if (a - bx, b - cy) ∈ l ∧ bx ≤ a ∧ cy ≤ b ∧ a < worldWidth ∧ b < worldHeight then
        min ((g a b).altitude + volcanoSpread sq u (a - bx) (b - cy)) maxAltitude
      else (g a b).altitude
  | [], g, a, b, _ => by
    rw [if_neg]
    · rfl
    · rintro ⟨hmem, -⟩
      exact List.not_mem_nil _ hmem
  | off :: l, g, a, b, hnd => by
    obtain ⟨hoff, hnd2⟩ := List.nodup_cons.mp hnd
    rw [List.foldl_cons]
    by_cases hhit : bx + off.1 = a ∧ cy + off.2 = b
    · obtain ⟨hh1, hh2⟩ := hhit
      have hsub1 : a - bx = off.1 := by omega
      have hsub2 : b - cy = off.2 := by omega
      by_cases hguard : bx + off.1 < worldWidth ∧ cy + off.2 < worldHeight
      · rw [if_pos hguard]
        have hframe : ∀ o ∈ l, ¬(bx + o.1 = a ∧ cy + o.2 = b) := by
          rintro o ho ⟨ho1, ho2⟩
          apply hoff
          have : o = off := by
            have e1 : o.1 = off.1 := by omega
            have e2 : o.2 = off.2 := by omega
            exact Prod.ext e1 e2
          exact this ▸ ho
        rw [volcanoFold_frame sq u bx cy l _ a b hframe]
        rw [if_pos ⟨by
            rw [hsub1, hsub2, Prod.mk.eta]
            exact List.mem_cons_self off l,
          by omega, by omega, by omega, by omega⟩]
        unfold raiseTile
        rw [hh1, hh2, setTile_self, hsub1, hsub2]
      · rw [if_neg hguard]
        rw [volcanoFold_altitude sq u bx cy l g a b hnd2]
        have hrange : ¬(a < worldWidth ∧ b < worldHeight) := by omega
        rw [if_neg (by rintro ⟨-, -, -, h4, h5⟩; exact hrange ⟨h4, h5⟩),
          if_neg (by rintro ⟨-, -, -, h4, h5⟩; exact hrange ⟨h4, h5⟩)]
    · have hcell : (if bx + off.1 < worldWidth ∧ cy + off.2 < worldHeight then
          raiseTile g (bx + off.1) (cy + off.2) (volcanoSpread sq u off.1 off.2)
        else g) a b = g a b := by
        split
        · exact setTile_of_ne _ _ _ _ (fun hab => hhit ⟨hab.1.symm, hab.2.symm⟩)
        · rfl
      rw [volcanoFold_altitude sq u bx cy l _ a b hnd2, hcell]
      by_cases hc : (a - bx, b - cy) ∈ l ∧ bx ≤ a ∧ cy ≤ b ∧ a < worldWidth ∧ b < worldHeight
      · rw [if_pos hc, if_pos ⟨List.mem_cons_of_mem off hc.1, hc.2⟩]
      · rw [if_neg hc, if_neg ?_]
        rintro ⟨hmem, h2, h3, h4, h5⟩
        rcases List.mem_cons.mp hmem with he | he
        · apply hhit
          have e1 : off.1 = a - bx := by rw [← he]
          have e2 : off.2 = b - cy := by rw [← he]
          omega
        · exact hc ⟨he, h2, h3, h4, h5⟩

theorem eruptVolcano_altitude (sq : ℕ → ℚ) (bx cy : ℕ) (r : ℚ) (g : Grid) (a b : ℕ) :
    ((eruptVolcano sq bx cy r g) a b).altitude =
      if bx ≤ a ∧ a < bx + volcanoDiameter ∧ cy ≤ b ∧ b < cy + volcanoDiameter ∧
          a < worldWidth ∧ b < worldHeight then
        min ((g a b).altitude + volcanoSpread sq (volcanoUpthrust r) (a - bx) (b - cy)) maxAltitude
      else (g a b).altitude := by
  rw [eruptVolcano_def,
    volcanoFold_altitude sq (volcanoUpthrust r) bx cy volcanoOffsets g a b volcanoOffsets_nodup]
  have hvd : volcanoDiameter = 9 := rfl
  by_cases h1 : (a - bx, b - cy) ∈ volcanoOffsets ∧ bx ≤ a ∧ cy ≤ b ∧
      a < worldWidth ∧ b < worldHeight
  · obtain ⟨hm, h2, h3, h4, h5⟩ := h1
    obtain ⟨hm1, hm2⟩ := mem_volcanoOffsets.mp hm
    rw [if_pos ⟨hm, h2, h3, h4, h5⟩, if_pos ⟨h2, by omega, h3, by omega, h4, h5⟩]
  · rw [if_neg h1, if_neg ?_]
    rintro ⟨h2, h3, h4, h5, h6, h7⟩
    exact h1 ⟨mem_volcanoOffsets.mpr ⟨by omega, by omega⟩, h2, h4, h6, h7⟩

theorem eruptVolcano_keeps (sq : ℕ → ℚ) (bx cy : ℕ) (r : ℚ) (g : Grid) : ∀ a b,
    ((eruptVolcano sq bx cy r g) a b).baseLuminosity = (g a b).baseLuminosity ∧
    ((eruptVolcano sq bx cy r g) a b).heat = (g a b).heat ∧
    ((eruptVolcano sq bx cy r g) a b).tileCover = (g a b).tileCover ∧
    ((eruptVolcano sq bx cy r g) a b).biomass = (g a b).biomass := by
  rw [eruptVolcano_def]
  refine foldl_hold _
    (fun g2 => ∀ a b,
      (g2 a b).baseLuminosity = (g a b).baseLuminosity ∧
      (g2 a b).heat = (g a b).heat ∧
      (g2 a b).tileCover = (g a b).tileCover ∧
      (g2 a b).biomass = (g a b).biomass)
    volcanoOffsets g ?_ (fun a b => ⟨rfl, rfl, rfl, rfl⟩)
  intro g2 off h a b
  dsimp only
  split
  · simp only [raiseTile_baseLuminosity, raiseTile_heat, raiseTile_tileCover, raiseTile_biomass]
    exact h a b
  · exact h a b

theorem jsFloor_nonneg {q : ℚ} (h : 0 ≤ q) : 0 ≤ jsFloor q := by
  unfold jsFloor
  exact_mod_cast Int.floor_nonneg.mpr h

theorem volcanoUpthrust_nonneg {r : ℚ} (h : 0 ≤ r) : 0 ≤ volcanoUpthrust r := by
  unfold volcanoUpthrust
  have hf := jsFloor_nonneg
    (mul_nonneg (by norm_num [volcanoUpthrustVariation] : (0:ℚ) ≤ volcanoUpthrustVariation) h)
  have : (0:ℚ) ≤ volcanoMinUpthrust := by norm_num [volcanoMinUpthrust]
  linarith

theorem volcanoSpread_nonneg (sq : ℕ → ℚ) {u : ℚ} (hu : 0 ≤ u) (i j : ℕ) :
    0 ≤ volcanoSpread sq u i j := by
  unfold volcanoSpread
  have h1 : 0 ≤ max ((volcanoHalfDiameter : ℚ) - sq (volcanoSqDist i j)) 0 := le_max_right _ _
  have h2 : (0:ℚ) ≤ (volcanoHalfDiameter : ℚ) := by positivity
  exact mul_nonneg (div_nonneg h1 h2) hu

theorem eruptVolcano_mono (sq : ℕ → ℚ) (bx cy : ℕ) {r : ℚ} (g : Grid) (a b : ℕ)
    (hr : 0 ≤ r) (halt : (g a b).altitude ≤ maxAltitude) :
    (g a b).altitude ≤ ((eruptVolcano sq bx cy r g) a b).altitude := by
  rw [eruptVolcano_altitude]
  split
  · exact le_min
      (le_add_of_nonneg_right (volcanoSpread_nonneg sq (volcanoUpthrust_nonneg hr) _ _)) halt
  · exact le_refl _

end EarthSim

namespace EarthSim

/-! ### The disabled tick -/

theorem localStepDisabled_master (htf : ℚ) (s : WorldState) (p : ℕ × ℕ) :
    (∀ a b, ((localStepDisabled htf s p).tiles a b).tileCover = (s.tiles a b).tileCover) ∧
    (localStepDisabled htf s p).atmosphere.nitrogen = s.atmosphere.nitrogen ∧
    (localStepDisabled htf s p).atmosphere.oxygen = s.atmosphere.oxygen ∧
    (localStepDisabled htf s p).atmosphere.methane = s.atmosphere.methane ∧
    (localStepDisabled htf s p).atmosphere.carbonDioxide = s.atmosphere.carbonDioxide +
      (if (s.tiles p.1 p.2).tileCover = TileCover.Rock then carbonPerLandTile else 0) ∧
    ((∀ a b, a < worldWidth → b < worldHeight → (s.tiles a b).altitude < seaLevel) →
      ∀ a b, a < worldWidth → b < worldHeight →
        ((localStepDisabled htf s p).tiles a b).altitude < seaLevel) := by
  have hatm : (localStepDisabled htf s p).atmosphere =
      emitTileGas s.atmosphere (erodeAndHeatTile htf (s.tiles p.1 p.2)).tileCover := rfl
  have htiles : (localStepDisabled htf s p).tiles =
      setTile s.tiles p.1 p.2 (erodeAndHeatTile htf (s.tiles p.1 p.2)) := rfl
  have hcov : (erodeAndHeatTile htf (s.tiles p.1 p.2)).tileCover = (s.tiles p.1 p.2).tileCover :=
    (erodeAndHeatTile_keeps htf _).2.1
  refine ⟨?_, ?_, ?_, ?_, ?_, ?_⟩
  · intro a b
    rw [htiles]
    by_cases hab : a = p.1 ∧ b = p.2
    · obtain ⟨rfl, rfl⟩ := hab
      rw [setTile_self, hcov]
    · rw [setTile_of_ne _ _ _ _ hab]
  · rw [hatm]; exact emitTileGas_nitrogen _ _
  · rw [hatm]; exact emitTileGas_oxygen _ _
  · rw [hatm]; exact emitTileGas_methane _ _
  · rw [hatm, emitTileGas_carbonDioxide, hcov]
  · intro hlow a b ha hb
    rw [htiles]
    by_cases hab : a = p.1 ∧ b = p.2
    · obtain ⟨rfl, rfl⟩ := hab
      rw [setTile_self, erodeAndHeatTile_altitude]
      have h1 : (s.tiles p.1 p.2).altitude < seaLevel := hlow p.1 p.2 ha hb
      have h2 : (0:ℚ) < seaLevel := by norm_num [seaLevel]
      have h3 : (0:ℚ) ≤ erosionRate := by norm_num [erosionRate]
      exact max_lt (by linarith) h2
    · rw [setTile_of_ne _ _ _ _ hab]
      exact hlow a b ha hb

theorem tileFoldDisabled_master (htf : ℚ) :
    ∀ (l : List (ℕ × ℕ)) (s : WorldState),
      (∀ a b, ((List.foldl (localStepDisabled htf) s l).tiles a b).tileCover =
        (s.tiles a b).tileCover) ∧
      (List.foldl (localStepDisabled htf) s l).atmosphere.nitrogen = s.atmosphere.nitrogen ∧
      (List.foldl (localStepDisabled htf) s l).atmosphere.oxygen = s.atmosphere.oxygen ∧
      (List.foldl (localStepDisabled htf) s l).atmosphere.methane = s.atmosphere.methane ∧
      (List.foldl (localStepDisabled htf) s l).atmosphere.carbonDioxide =
        s.atmosphere.carbonDioxide + carbonPerLandTile *
          (l.countP (fun p => decide ((s.tiles p.1 p.2).tileCover = TileCover.Rock)) : ℚ) ∧
      ((∀ a b, a < worldWidth → b < worldHeight → (s.tiles a b).altitude < seaLevel) →
        ∀ a b, a < worldWidth → b < worldHeight →
          ((List.foldl (localStepDisabled htf) s l).tiles a b).altitude < seaLevel)
  | [], s => by
    refine ⟨fun a b => rfl, rfl, rfl, rfl, by simp, fun h => h⟩
  | p :: l, s => by
    obtain ⟨m1, m2, m3, m4, m5, m6⟩ := localStepDisabled_master htf s p
    obtain ⟨k1, k2, k3, k4, k5, k6⟩ :=
      tileFoldDisabled_master htf l (localStepDisabled htf s p)
    rw [List.foldl_cons]
    refine ⟨fun a b => (k1 a b).trans (m1 a b), k2.trans m2, k3.trans m3, k4.trans m4, ?_, ?_⟩
    · rw [k5, m5, List.countP_cons]
      have hcong : (l.countP (fun q =>
            decide (((localStepDisabled htf s p).tiles q.1 q.2).tileCover = TileCover.Rock))) =
          (l.countP (fun q => decide ((s.tiles q.1 q.2).tileCover = TileCover.Rock))) := by
        refine List.countP_congr ?_
        intro q hq
        simp only [decide_eq_true_eq]
        rw [m1 q.1 q.2]
      rw [hcong]
      by_cases hw : (s.tiles p.1 p.2).tileCover = TileCover.Rock
      · rw [if_pos hw, if_pos (by simpa using hw)]
        push_cast
        ring
      · rw [if_neg hw, if_neg (by simpa using hw)]
        push_cast
        ring
    · intro hlow
      exact k6 (m6 hlow)

theorem tickDisabled_def (s : WorldState) :
    tickDisabled s = finishTiles (tickDisabledTilePhase s) := by
  simp only [tickDisabled]

theorem tickDisabledTilePhase_def (s : WorldState) :
    tickDisabledTilePhase s =
      tileOrder.foldl
        (localStepDisabled
          (computeHeatTrappingFactor (computeTileAtmosphere (decayAtmosphere s.atmosphere))))
        { atmosphere := decayAtmosphere s.atmosphere, tiles := s.tiles, biomass := s.biomass } := by
  unfold tickDisabledTilePhase
  rfl

theorem computeTileCover_ne_rock {t : Tile} (h : t.altitude < seaLevel) :
    computeTileCover t ≠ TileCover.Rock := by
  unfold computeTileCover
  rw [if_pos h]
  split <;> simp

/-- The four decayed gas pools of the disabled tick, and the preserved
lowland and non-rock invariants. -/
theorem tickDisabled_gases (s : WorldState) :
    (tickDisabled s).atmosphere.nitrogen = s.atmosphere.nitrogen * (1 - atmosphereLossRate) ∧
    (tickDisabled s).atmosphere.oxygen = s.atmosphere.oxygen * (1 - atmosphereLossRate) ∧
    (tickDisabled s).atmosphere.methane = s.atmosphere.methane * (1 - atmosphereLossRate) ∧
    (tickDisabled s).atmosphere.carbonDioxide =
      s.atmosphere.carbonDioxide * (1 - atmosphereLossRate) +
        carbonPerLandTile * (rockTileCount s.tiles : ℚ) := by
  obtain ⟨k1, k2, k3, k4, k5, k6⟩ := tileFoldDisabled_master
    (computeHeatTrappingFactor (computeTileAtmosphere (decayAtmosphere s.atmosphere)))
    tileOrder
    { atmosphere := decayAtmosphere s.atmosphere, tiles := s.tiles, biomass := s.biomass }
  rw [tickDisabled_def]
  rw [show (finishTiles (tickDisabledTilePhase s)).atmosphere = (tickDisabledTilePhase s).atmosphere
    from finishTiles_atmosphere _]
  rw [tickDisabledTilePhase_def]
  refine ⟨?_, ?_, ?_, ?_⟩
  · rw [k2]; show s.atmosphere.nitrogen - s.atmosphere.nitrogen * atmosphereLossRate = _; ring
  · rw [k3]; show s.atmosphere.oxygen - s.atmosphere.oxygen * atmosphereLossRate = _; ring
  · rw [k4]; show s.atmosphere.methane - s.atmosphere.methane * atmosphereLossRate = _; ring
  · rw [k5]
    show s.atmosphere.carbonDioxide - s.atmosphere.carbonDioxide * atmosphereLossRate + _ = _
    unfold rockTileCount
    ring

theorem tickDisabled_keeps_lowland (s : WorldState)
    (halt : ∀ a b, a < worldWidth → b < worldHeight → (s.tiles a b).altitude < seaLevel) :
    (∀ a b, a < worldWidth → b < worldHeight →
      ((tickDisabled s).tiles a b).altitude < seaLevel) ∧
    (∀ a b, a < worldWidth → b < worldHeight →
      ((tickDisabled s).tiles a b).tileCover ≠ TileCover.Rock) := by
  obtain ⟨k1, k2, k3, k4, k5, k6⟩ := tileFoldDisabled_master
    (computeHeatTrappingFactor (computeTileAtmosphere (decayAtmosphere s.atmosphere)))
    tileOrder
    { atmosphere := decayAtmosphere s.atmosphere, tiles := s.tiles, biomass := s.biomass }
  have htiles : (tickDisabled s).tiles =
      reclassifyPass (heatPass (tickDisabledTilePhase s).tiles) := by
    rw [tickDisabled_def, finishTiles_tiles]
  have hlow2 : ∀ a b, a < worldWidth → b < worldHeight →
      ((tickDisabledTilePhase s).tiles a b).altitude < seaLevel := by
    rw [tickDisabledTilePhase_def]
    exact k6 halt
  have hlow3 : ∀ a b, a < worldWidth → b < worldHeight →
      ((reclassifyPass (heatPass (tickDisabledTilePhase s).tiles)) a b).altitude < seaLevel := by
    intro a b ha hb
    rw [(reclassifyPass_keeps _ a b).1, (heatPass_keeps _ a b).1]
    exact hlow2 a b ha hb
  constructor
  · intro a b ha hb
    rw [htiles]
    exact hlow3 a b ha hb
  · intro a b ha hb
    rw [htiles, reclassifyPass_cover_of_mem _ a b ha hb]
    exact computeTileCover_ne_rock (hlow3 a b ha hb)

theorem rockTileCount_zero {g : Grid}
    (h : ∀ a b, a < worldWidth → b < worldHeight → (g a b).tileCover ≠ TileCover.Rock) :
    rockTileCount g = 0 := by
  unfold rockTileCount
  rw [List.countP_eq_zero]
  intro p hp
  obtain ⟨h1, h2⟩ := mem_tileOrder.mp (by
    have : ((p.1, p.2) : ℕ × ℕ) = p := Prod.mk.eta
    rw [this]
    exact hp)
  simp only [decide_eq_true_eq]
  exact h p.1 p.2 h1 h2

/-- Geometric decay formulas for the disabled run. -/
theorem runDisabled_gas_formulas (s : WorldState) :
    ∀ n : ℕ,
      (runDisabled s n).atmosphere.nitrogen =
        s.atmosphere.nitrogen * (1 - atmosphereLossRate) ^ n ∧
      (runDisabled s n).atmosphere.oxygen =
        s.atmosphere.oxygen * (1 - atmosphereLossRate) ^ n ∧
      (runDisabled s n).atmosphere.methane =
        s.atmosphere.methane * (1 - atmosphereLossRate) ^ n
  | 0 => by norm_num [runDisabled]
  | n + 1 => by
    obtain ⟨k1, k2, k3⟩ := runDisabled_gas_formulas s n
    obtain ⟨m1, m2, m3, -⟩ := tickDisabled_gases (runDisabled s n)
    refine ⟨?_, ?_, ?_⟩
    · show (tickDisabled (runDisabled s n)).atmosphere.nitrogen = _
      rw [m1, k1]; ring
    · show (tickDisabled (runDisabled s n)).atmosphere.oxygen = _
      rw [m2, k2]; ring
    · show (tickDisabled (runDisabled s n)).atmosphere.methane = _
      rw [m3, k3]; ring

/-- Geometric decay of carbon dioxide along the disabled run, on lowland
worlds with no rock cover; the lowland and non-rock invariants ride along. -/
theorem runDisabled_co2_formula (s : WorldState)
    (halt : ∀ a b, a < worldWidth → b < worldHeight → (s.tiles a b).altitude < seaLevel)
    (hcov : ∀ a b, a < worldWidth → b < worldHeight →
      (s.tiles a b).tileCover ≠ TileCover.Rock) :
    ∀ n : ℕ,
      (runDisabled s n).atmosphere.carbonDioxide =
        s.atmosphere.carbonDioxide * (1 - atmosphereLossRate) ^ n ∧
      (∀ a b, a < worldWidth → b < worldHeight →
        ((runDisabled s n).tiles a b).altitude < seaLevel) ∧
      (∀ a b, a < worldWidth → b < worldHeight →
        ((runDisabled s n).tiles a b).tileCover ≠ TileCover.Rock)
  | 0 => by
    refine ⟨by norm_num [runDisabled], halt, hcov⟩
  | n + 1 => by
    obtain ⟨k1, k2, k3⟩ := runDisabled_co2_formula s halt hcov n
    obtain ⟨-, -, -, m4⟩ := tickDisabled_gases (runDisabled s n)
    obtain ⟨w1, w2⟩ := tickDisabled_keeps_lowland (runDisabled s n) k2
    refine ⟨?_, w1, w2⟩
    show (tickDisabled (runDisabled s n)).atmosphere.carbonDioxide = _
    rw [m4, rockTileCount_zero k3, k1]
    push_cast
    ring

/-- Any nonnegative multiple of the decay power drops below any positive
bound from some tick on. -/
theorem geom_decay_lt {q e : ℚ} (hq : 0 ≤ q) (he : 0 < e) :
    ∃ N : ℕ, ∀ n : ℕ, N ≤ n → q * (1 - atmosphereLossRate) ^ n < e := by
  obtain ⟨N0, hN0⟩ := exists_nat_gt (q * 99 / e)
  refine ⟨N0 + 1, fun n hn => ?_⟩
  have hn1 : 1 ≤ n := le_trans (by omega) hn
  have hncast : (1:ℚ) ≤ (n:ℚ) := by exact_mod_cast hn1
  have hnpos : (0:ℚ) < (n:ℚ) := by linarith
  have hnq : q * 99 / e < (n:ℚ) := by
    refine lt_of_lt_of_le hN0 ?_
    exact_mod_cast Nat.le_of_lt (by omega)
  have hbound : (1 - atmosphereLossRate) ^ n ≤ 99 / (n:ℚ) := by
    have h1 : (1:ℚ) + (n:ℚ) * (1/99) ≤ (1 + 1/99) ^ n :=
      one_add_mul_le_pow (by norm_num) n
    have h2 : (n:ℚ) / 99 ≤ ((100:ℚ)/99) ^ n := by
      have : ((1:ℚ) + 1/99) = 100/99 := by norm_num
      rw [← this]
      refine le_trans ?_ h1
      linarith
    have h3 : (0:ℚ) < (n:ℚ) / 99 := by positivity
    have h4 : (((100:ℚ)/99) ^ n)⁻¹ ≤ ((n:ℚ) / 99)⁻¹ := inv_anti₀ h3 h2
    have h5 : (1 - atmosphereLossRate : ℚ) ^ n = (((100:ℚ)/99) ^ n)⁻¹ := by
      rw [← inv_pow]
      norm_num [atmosphereLossRate]
    rw [h5]
    refine le_trans h4 ?_
    rw [inv_div]
  have hpownn : (0:ℚ) ≤ (1 - atmosphereLossRate) ^ n := by
    have : (0:ℚ) ≤ 1 - atmosphereLossRate := by norm_num [atmosphereLossRate]
    positivity
  calc q * (1 - atmosphereLossRate) ^ n ≤ q * (99 / (n:ℚ)) :=
        mul_le_mul_of_nonneg_left hbound hq
    _ = q * 99 / (n:ℚ) := by ring
    _ < e := by
        rw [div_lt_iff hnpos]
        rw [div_lt_iff he] at hnq
        linarith
end EarthSim

namespace EarthSim

/-! ### Heat diffusion refinement (claim C1) -/

theorem foldl_congr_mem {α β : Type _} (f h : α → β → α) :
    ∀ (l : List β), (∀ a b, b ∈ l → f a b = h a b) → ∀ (a : α), l.foldl f a = l.foldl h a
  | [], _, _ => rfl
  | b :: l, hfh, a => by
    rw [List.foldl_cons, List.foldl_cons, hfh a b (List.mem_cons_self b l)]
    exact foldl_congr_mem f h l (fun a2 b2 hb2 => hfh a2 b2 (List.mem_cons_of_mem b hb2)) _

theorem transferHeat_eq_spec (g : Grid) (x y : ℕ) (hy : y < worldHeight) :
    transferHeat g x y = heatDiffusionSpecStep g x y := by
  unfold transferHeat heatDiffusionSpecStep
  by_cases hcond : y + 1 < worldHeight
  · rw [if_pos hcond, if_pos (by omega : y + 1 ≠ worldHeight)]
  · rw [if_neg hcond, if_neg (by omega : ¬y + 1 ≠ worldHeight)]

theorem rasterOrder_eq_tileOrder : rasterOrder = tileOrder := rfl

theorem heatPass_eq_spec (g : Grid) : heatPass g = heatDiffusionSpecPass g := by
  unfold heatPass heatDiffusionSpecPass
  rw [rasterOrder_eq_tileOrder]
  refine foldl_congr_mem _ _ tileOrder ?_ g
  intro g2 p hp
  have hy : p.2 < worldHeight := by
    have hmem : (p.1, p.2) ∈ tileOrder := by rw [Prod.mk.eta]; exact hp
    exact (mem_tileOrder.mp hmem).2
  exact transferHeat_eq_spec g2 p.1 p.2 hy

/-! ### Population diffusion refinement (amended claim C2) -/

theorem transferProkHorizontal_eq_amended {g : Grid} {x y : ℕ}
    (hT : canProkaryotesSurvive (g x y)) :
    transferProkHorizontal g x y = amendedHorizontal g x y := by
  obtain ⟨hT1, hT2⟩ := hT
  unfold transferProkHorizontal amendedHorizontal
  refine if_congr ?_ rfl rfl
  unfold amendedEligiblePair canProkaryotesSurvive
  constructor
  · rintro ⟨⟨e1, e2⟩, e3⟩
    exact ⟨hT1, hT2, e1, e2, e3⟩
  · rintro ⟨-, -, e1, e2, e3⟩
    exact ⟨⟨e1, e2⟩, e3⟩

theorem amendedHorizontal_of_dead {g : Grid} {x y : ℕ}
    (hT : ¬canProkaryotesSurvive (g x y)) :
    amendedHorizontal g x y = g := by
  unfold amendedHorizontal
  rw [if_neg]
  rintro ⟨e1, e2, -⟩
  exact hT ⟨e1, e2⟩

theorem transferProkVertical_eq_amended {g1 : Grid} {x y : ℕ}
    (hT : canProkaryotesSurvive (g1 x y)) (hy : y < worldHeight) :
    transferProkVertical g1 x y = amendedVertical g1 x y := by
  obtain ⟨hT1, hT2⟩ := hT
  unfold transferProkVertical amendedVertical
  rw [if_congr (show (y + 1 ≠ worldHeight) ↔ (y + 1 < worldHeight) by omega) rfl rfl]
  refine if_congr Iff.rfl (if_congr ?_ rfl rfl) rfl
  unfold amendedEligiblePair canProkaryotesSurvive
  constructor
  · rintro ⟨⟨e1, e2⟩, e3⟩
    exact ⟨hT1, hT2, e1, e2, e3⟩
  · rintro ⟨-, -, e1, e2, e3⟩
    exact ⟨⟨e1, e2⟩, e3⟩

theorem amendedVertical_of_dead {g1 : Grid} {x y : ℕ}
    (hT : ¬canProkaryotesSurvive (g1 x y)) :
    amendedVertical g1 x y = g1 := by
  unfold amendedVertical
  split
  · rw [if_neg]
    rintro ⟨e1, e2, -⟩
    exact hT ⟨e1, e2⟩
  · rfl

theorem transferProkaryotes_eq_amended (g : Grid) (x y : ℕ) (hy : y < worldHeight) :
    transferProkaryotes g x y = popDiffusionAmendedStep g x y := by
  unfold transferProkaryotes popDiffusionAmendedStep
  by_cases hT : canProkaryotesSurvive (g x y)
  · rw [if_pos hT, transferProkHorizontal_eq_amended hT]
    refine transferProkVertical_eq_amended ?_ hy
    obtain ⟨-, -, hh, hc, -⟩ := transferProkHorizontal_keeps g x y x y
    obtain ⟨hT1, hT2⟩ := hT
    rw [← transferProkHorizontal_eq_amended ⟨hT1, hT2⟩]
    exact ⟨hh ▸ hT1, hc ▸ hT2⟩
  · rw [if_neg hT, amendedHorizontal_of_dead hT, amendedVertical_of_dead hT]

end EarthSim

namespace EarthSim

/-! ### Hypothesis-free frame lemmas for the per-tile pass -/

theorem localStep_cover (tA : Atmosphere) (htf : ℚ) (rand : ℕ → ℕ → ℚ)
    (s : WorldState) (p : ℕ × ℕ) :
    ∀ a b, ((localStep tA htf rand s p).tiles a b).tileCover = (s.tiles a b).tileCover := by
  intro a b
  rw [localStep_tiles]
  obtain ⟨-, -, -, hcov, -⟩ := transferProkaryotes_keeps _ p.1 p.2 a b
  rw [hcov]
  by_cases hab : a = p.1 ∧ b = p.2
  · obtain ⟨rfl, rfl⟩ := hab
    rw [setTile_self, applyBiomass_tile]
    exact ((abiogenesisStep_keeps _ _).2.2.2).trans ((erodeAndHeatTile_keeps htf _).2.1)
  · rw [setTile_of_ne _ _ _ _ hab]

theorem tileFold_cover (tA : Atmosphere) (htf : ℚ) (rand : ℕ → ℕ → ℚ) :
    ∀ (l : List (ℕ × ℕ)) (s : WorldState) (a b : ℕ),
      ((List.foldl (localStep tA htf rand) s l).tiles a b).tileCover = (s.tiles a b).tileCover
  | [], _, _, _ => rfl
  | p :: l, s, a, b => by
    rw [List.foldl_cons, tileFold_cover tA htf rand l _ a b, localStep_cover tA htf rand s p a b]

theorem localStep_nitrogen (tA : Atmosphere) (htf : ℚ) (rand : ℕ → ℕ → ℚ)
    (s : WorldState) (p : ℕ × ℕ) :
    (localStep tA htf rand s p).atmosphere.nitrogen = s.atmosphere.nitrogen := by
  rw [localStep_atmosphere, applyBiomass_atm]
  exact emitTileGas_nitrogen _ _

theorem localStep_methane (tA : Atmosphere) (htf : ℚ) (rand : ℕ → ℕ → ℚ)
    (s : WorldState) (p : ℕ × ℕ) :
    (localStep tA htf rand s p).atmosphere.methane = s.atmosphere.methane := by
  rw [localStep_atmosphere, applyBiomass_atm]
  exact emitTileGas_methane _ _

theorem localStep_vapour (tA : Atmosphere) (htf : ℚ) (rand : ℕ → ℕ → ℚ)
    (s : WorldState) (p : ℕ × ℕ) :
    (localStep tA htf rand s p).atmosphere.waterVapour = s.atmosphere.waterVapour +
      (if (s.tiles p.1 p.2).tileCover = TileCover.Water then waterVaporPerOceanTile else 0) := by
  rw [localStep_atmosphere, applyBiomass_atm]
  show (emitTileGas s.atmosphere _).waterVapour = _
  rw [emitTileGas_waterVapour, (erodeAndHeatTile_keeps htf _).2.1]

theorem tileFold_nitrogen (tA : Atmosphere) (htf : ℚ) (rand : ℕ → ℕ → ℚ) :
    ∀ (l : List (ℕ × ℕ)) (s : WorldState),
      (List.foldl (localStep tA htf rand) s l).atmosphere.nitrogen = s.atmosphere.nitrogen
  | [], _ => rfl
  | p :: l, s => by
    rw [List.foldl_cons, tileFold_nitrogen tA htf rand l _, localStep_nitrogen]

theorem tileFold_methane (tA : Atmosphere) (htf : ℚ) (rand : ℕ → ℕ → ℚ) :
    ∀ (l : List (ℕ × ℕ)) (s : WorldState),
      (List.foldl (localStep tA htf rand) s l).atmosphere.methane = s.atmosphere.methane
  | [], _ => rfl
  | p :: l, s => by
    rw [List.foldl_cons, tileFold_methane tA htf rand l _, localStep_methane]

theorem tileFold_vapour (tA : Atmosphere) (htf : ℚ) (rand : ℕ → ℕ → ℚ) :
    ∀ (l : List (ℕ × ℕ)) (s : WorldState),
      (List.foldl (localStep tA htf rand) s l).atmosphere.waterVapour =
        s.atmosphere.waterVapour + waterVaporPerOceanTile *
          (l.countP (fun p => decide ((s.tiles p.1 p.2).tileCover = TileCover.Water)) : ℚ)
  | [], s => by simp
  | p :: l, s => by
    rw [List.foldl_cons, tileFold_vapour tA htf rand l _, localStep_vapour, List.countP_cons]
    have hcong : (l.countP (fun q =>
          decide (((localStep tA htf rand s p).tiles q.1 q.2).tileCover = TileCover.Water))) =
        (l.countP (fun q => decide ((s.tiles q.1 q.2).tileCover = TileCover.Water))) := by
      refine List.countP_congr ?_
      intro q hq
      simp only [decide_eq_true_eq]
      rw [localStep_cover tA htf rand s p q.1 q.2]
    rw [hcong]
    by_cases hw : (s.tiles p.1 p.2).tileCover = TileCover.Water
    · rw [if_pos hw, if_pos (by simpa using hw)]
      push_cast
      ring
    · rw [if_neg hw, if_neg (by simpa using hw)]
      push_cast
      ring

/-! ### Abiogenesis and growth helpers (claim C3) -/

theorem abiogenesisStep_fires {r : ℚ} {t : Tile}
    (h1 : t.biomass.total = 0) (h2 : t.heat > prokaryoteAbiogenesisMinHeat)
    (h3 : t.heat < unlivableTemperature) (h4 : r < prokaryoteAbiogenesisChance) :
    abiogenesisStep r t = { t with biomass := { total := 1, prokaryote := 1 } } := by
  unfold abiogenesisStep
  rw [if_pos ⟨h1, h2, h3⟩, if_pos h4]

theorem abiogenesisStep_noop {r : ℚ} {t : Tile}
    (h : ¬(t.biomass.total = 0 ∧ t.heat > prokaryoteAbiogenesisMinHeat ∧
        t.heat < unlivableTemperature ∧ r < prokaryoteAbiogenesisChance)) :
    abiogenesisStep r t = t := by
  unfold abiogenesisStep
  by_cases h1 : t.biomass.total = 0 ∧ t.heat > prokaryoteAbiogenesisMinHeat ∧
      t.heat < unlivableTemperature
  · rw [if_pos h1, if_neg (fun h4 => h ⟨h1.1, h1.2.1, h1.2.2, h4⟩)]
  · rw [if_neg h1]

theorem grownProkaryote_of_alive {t : Tile} {tA : Atmosphere}
    (hh : ¬t.heat > unlivableTemperature) (hw : t.tileCover = TileCover.Water)
    (hc : tA.carbonDioxide ≠ 0) :
    grownProkaryote t tA =
      min (t.biomass.prokaryote + t.biomass.prokaryote *
          min (tA.carbonDioxide * prokaryoteReproductionRate) prokaryoteReproductionRate)
        (t.baseLuminosity * fullLuminosityHeat * photosynthticBiomassPerEnergy) := by
  unfold grownProkaryote survivingBiomass
  rw [if_neg (by rintro (h | h | h); exacts [hh h, h hw, hc h])]

theorem grownProkaryote_of_dead_co2 {t : Tile} {tA : Atmosphere}
    (hc : tA.carbonDioxide = 0) (hl : 0 ≤ t.baseLuminosity) :
    grownProkaryote t tA = 0 := by
  unfold grownProkaryote survivingBiomass
  rw [if_pos (Or.inr (Or.inr hc))]
  have hcap : 0 ≤ t.baseLuminosity * fullLuminosityHeat * photosynthticBiomassPerEnergy := by
    refine mul_nonneg (mul_nonneg hl ?_) ?_ <;>
      norm_num [fullLuminosityHeat, photosynthticBiomassPerEnergy]
  show min ((0:ℚ) + 0 * _) _ = 0
  rw [zero_mul, add_zero, min_eq_left hcap]

end EarthSim

namespace EarthSim

/-! ### Concrete-state helpers -/

theorem tileOrder_head : tileOrder = (0, 0) :: tileOrder.tail := rfl

theorem tileOrder_length : tileOrder.length = worldWidth * worldHeight := by
  unfold tileOrder
  rw [List.length_flatMap]
  simp only [Function.comp_def, List.length_map, List.length_range]
  rw [List.map_const', List.sum_replicate, List.length_range, smul_eq_mul]

theorem all_rat_nonneg_decide {q : ℚ} (h : 0 ≤ q) : decide (0 ≤ q) = true :=
  decide_eq_true h

theorem nonnegStateB_C5 : nonnegStateB stateC5 = true := by
  unfold nonnegStateB
  simp only [Bool.and_eq_true, List.all_eq_true]
  refine ⟨⟨⟨⟨⟨?_, ?_⟩, ?_⟩, ?_⟩, ?_⟩, ?_⟩
  · decide
  · decide
  · decide
  · decide
  · decide
  · intro p hp
    constructor <;>
    · rw [decide_eq_true_eq]
      show (0:ℚ) ≤ _
      unfold stateC5 tileC5
      dsimp only
      split <;> norm_num

theorem stateC5_tiles_00 : stateC5.tiles 0 0 =
    { altitude := 0, baseLuminosity := 1, heat := 100, tileCover := TileCover.Water,
      biomass := { total := 7200, prokaryote := 7200 } } := by
  show tileC5 0 0 = _
  unfold tileC5
  norm_num

theorem volcanoUpthrust_zero : volcanoUpthrust 0 = 1000 := by
  unfold volcanoUpthrust jsFloor
  norm_num [volcanoUpthrustVariation, volcanoMinUpthrust]

/-! ### The claim-side eruption fold (claim C4) -/

theorem eruptVolcanoClaim_def (sq : ℕ → ℚ) (bx cy : ℕ) (r : ℚ) (g : Grid) :
    eruptVolcanoClaim sq bx cy r g = claimVolcanoOffsets.foldl (fun g2 off =>
      if 0 ≤ (bx : ℤ) + off.1 ∧ (bx : ℤ) + off.1 < worldWidth ∧
          0 ≤ (cy : ℤ) + off.2 ∧ (cy : ℤ) + off.2 < worldHeight then
        raiseTile g2 ((bx : ℤ) + off.1).toNat ((cy : ℤ) + off.2).toNat
          (max ((volcanoHalfDiameter : ℚ) - sq (off.1 * off.1 + off.2 * off.2).toNat) 0 /
            (volcanoHalfDiameter : ℚ) * volcanoUpthrust r)
      else g2) g := rfl

theorem claimFold_alt_bounds (sq : ℕ → ℚ) (bx cy : ℕ) {r : ℚ} (hr : 0 ≤ r) :
    ∀ (l : List (ℤ × ℤ)) (g : Grid) (a b : ℕ),
      0 ≤ (g a b).altitude → (g a b).altitude ≤ maxAltitude →
      (g a b).altitude ≤
          ((l.foldl (fun g2 off =>
            if 0 ≤ (bx : ℤ) + off.1 ∧ (bx : ℤ) + off.1 < worldWidth ∧
                0 ≤ (cy : ℤ) + off.2 ∧ (cy : ℤ) + off.2 < worldHeight then
              raiseTile g2 ((bx : ℤ) + off.1).toNat ((cy : ℤ) + off.2).toNat
                (max ((volcanoHalfDiameter : ℚ) - sq (off.1 * off.1 + off.2 * off.2).toNat) 0 /
                  (volcanoHalfDiameter : ℚ) * volcanoUpthrust r)
            else g2) g) a b).altitude ∧
        0 ≤ ((l.foldl (fun g2 off =>
            if 0 ≤ (bx : ℤ) + off.1 ∧ (bx : ℤ) + off.1 < worldWidth ∧
                0 ≤ (cy : ℤ) + off.2 ∧ (cy : ℤ) + off.2 < worldHeight then
              raiseTile g2 ((bx : ℤ) + off.1).toNat ((cy : ℤ) + off.2).toNat
                (max ((volcanoHalfDiameter : ℚ) - sq (off.1 * off.1 + off.2 * off.2).toNat) 0 /
                  (volcanoHalfDiameter : ℚ) * volcanoUpthrust r)
            else g2) g) a b).altitude ∧
        ((l.foldl (fun g2 off =>
            if 0 ≤ (bx : ℤ) + off.1 ∧ (bx : ℤ) + off.1 < worldWidth ∧
                0 ≤ (cy : ℤ) + off.2 ∧ (cy : ℤ) + off.2 < worldHeight then
              raiseTile g2 ((bx : ℤ) + off.1).toNat ((cy : ℤ) + off.2).toNat
                (max ((volcanoHalfDiameter : ℚ) - sq (off.1 * off.1 + off.2 * off.2).toNat) 0 /
                  (volcanoHalfDiameter : ℚ) * volcanoUpthrust r)
            else g2) g) a b).altitude ≤ maxAltitude
  | [], g, a, b, h0, h1 => ⟨le_refl _, h0, h1⟩
  | off :: l, g, a, b, h0, h1 => by
    rw [List.foldl_cons]
    have hspread : 0 ≤ max ((volcanoHalfDiameter : ℚ) -
        sq (off.1 * off.1 + off.2 * off.2).toNat) 0 /
          (volcanoHalfDiameter : ℚ) * volcanoUpthrust r :=
      mul_nonneg (div_nonneg (le_max_right _ _) (by positivity)) (volcanoUpthrust_nonneg hr)
    set g1 := (if 0 ≤ (bx : ℤ) + off.1 ∧ (bx : ℤ) + off.1 < worldWidth ∧
        0 ≤ (cy : ℤ) + off.2 ∧ (cy : ℤ) + off.2 < worldHeight then
      raiseTile g ((bx : ℤ) + off.1).toNat ((cy : ℤ) + off.2).toNat
        (max ((volcanoHalfDiameter : ℚ) - sq (off.1 * off.1 + off.2 * off.2).toNat) 0 /
          (volcanoHalfDiameter : ℚ) * volcanoUpthrust r)
      else g) with hg1
    have hcell : (g a b).altitude ≤ (g1 a b).altitude ∧ 0 ≤ (g1 a b).altitude ∧
        (g1 a b).altitude ≤ maxAltitude := by
      rw [hg1]
      split
      · unfold raiseTile
        rw [setTile_eval]
        split
        · rename_i hab
          obtain ⟨rfl, rfl⟩ := hab
          refine ⟨le_min (by linarith) h1, ?_, min_le_right _ _⟩
          exact le_min (by linarith) (by norm_num [maxAltitude]) |>.trans (le_refl _) |>.trans
            (le_refl _) |>.trans (le_refl _) |>.trans (le_refl _) |>.trans (le_refl _)
        · exact ⟨le_refl _, h0, h1⟩
      · exact ⟨le_refl _, h0, h1⟩
    obtain ⟨c1, c2, c3⟩ := hcell
    obtain ⟨d1, d2, d3⟩ := claimFold_alt_bounds sq bx cy hr l g1 a b c2 c3
    exact ⟨le_trans c1 d1, d2, d3⟩

end EarthSim

namespace EarthSim

/-! ## Claim theorems -/

/-- Claim C1: during each tick's heat diffusion pass, tiles are processed in
raster order (ascending x then y); each tile (x,y) immediately writes
avgE = (heat(x,y)+heat(E))/2 into E = ((x+1) mod W, y); when y+1 < H it
immediately writes avgS = (heat(x,y)+heat(S))/2 into S = (x, y+1) and sets
its own heat to (avgE+avgS)/2, and on the southern edge row its own heat
becomes avgE alone; every write is visible to tiles processed later in the
same scan. Formally: the source's heat diffusion pass coincides with the
pass transcribed from the claim's words on every grid. -/
theorem C1_heat_diffusion (g : Grid) : heatPass g = heatDiffusionSpecPass g :=
  heatPass_eq_spec g

/-- Claim C9: tick() is deterministic in its random input — two N-tick runs
started from identical states and fed identical random draws (volcano
placement and magnitude, abiogenesis trials) produce identical states for
every N. All randomness of the source is an explicit parameter of this
embedding, so determinism follows by congruence. -/
theorem C9_deterministic (sq : ℕ → ℚ) (rnd1 rnd2 : ℕ → TickRandom)
    (s t : WorldState) (n : ℕ) (hr : rnd1 = rnd2) (hs : s = t) :
    run sq rnd1 s n = run sq rnd2 t n := by
  rw [hr, hs]

/-- Witness for C9 at a concrete state and stream. -/
theorem C9_witness :
    run (fun _ => 0) (fun _ => { vx := 0, vy := 0, vr := 0, abioRand := fun _ _ => 1 })
        witState 1 =
      run (fun _ => 0) (fun _ => { vx := 0, vy := 0, vr := 0, abioRand := fun _ _ => 1 })
        witState 1 :=
  C9_deterministic (fun _ => 0) _ _ witState witState 1 rfl rfl

/-- Claim C7: water vapour is never decayed — after every tick it equals
waterVaporPerOceanTile times the number of tiles that were water-covered
during the per-tile pass (the pre-tick covers), fully replacing the
previous value; nitrogen and methane leave the whole tick decreased by
exactly quantity * lossRate, and the decay phase that runs before the
per-tile pass subtracts quantity * lossRate from oxygen and carbon dioxide
as well while zeroing water vapour. -/
theorem C7_water_vapour (sq : ℕ → ℚ) (vx vy : ℕ) (vr : ℚ) (rand : ℕ → ℕ → ℚ)
    (s : WorldState) :
    (tick sq vx vy vr rand s).atmosphere.waterVapour =
      waterVaporPerOceanTile * (waterTileCount s.tiles : ℚ) ∧
    (tick sq vx vy vr rand s).atmosphere.nitrogen =
      s.atmosphere.nitrogen - s.atmosphere.nitrogen * atmosphereLossRate ∧
    (tick sq vx vy vr rand s).atmosphere.methane =
      s.atmosphere.methane - s.atmosphere.methane * atmosphereLossRate ∧
    (preparedState sq vx vy vr s).atmosphere = decayAtmosphere s.atmosphere ∧
    (decayAtmosphere s.atmosphere).oxygen =
      s.atmosphere.oxygen - s.atmosphere.oxygen * atmosphereLossRate ∧
    (decayAtmosphere s.atmosphere).carbonDioxide =
      s.atmosphere.carbonDioxide - s.atmosphere.carbonDioxide * atmosphereLossRate ∧
    (decayAtmosphere s.atmosphere).waterVapour = 0 := by
  refine ⟨?_, ?_, ?_, rfl, rfl, rfl, rfl⟩
  · rw [tick_def, finishTiles_atmosphere, tickTilePhase_def, tileFold_vapour]
    have h0 : (preparedState sq vx vy vr s).atmosphere.waterVapour = 0 := rfl
    rw [h0, zero_add]
    have hc : (tileOrder.countP (fun p =>
        decide (((preparedState sq vx vy vr s).tiles p.1 p.2).tileCover = TileCover.Water))) =
        waterTileCount s.tiles := by
      unfold waterTileCount
      refine List.countP_congr ?_
      intro p hp
      simp only [decide_eq_true_eq]
      have hpre : (preparedState sq vx vy vr s).tiles p.1 p.2 =
          (eruptVolcano sq vx vy vr s.tiles) p.1 p.2 := rfl
      rw [hpre, (eruptVolcano_keeps sq vx vy vr s.tiles p.1 p.2).2.2.1]
    rw [hc]
  · rw [tick_def, finishTiles_atmosphere, tickTilePhase_def, tileFold_nitrogen]
    rfl
  · rw [tick_def, finishTiles_atmosphere, tickTilePhase_def, tileFold_methane]
    rfl

/-- Claim C8: after every tick, every tile's tileCover equals the pure
classification of that tile's final altitude and heat, and no phase other
than the final reclassification pass mutates tileCover: the per-tile pass,
the heat pass and the eruption all preserve every cover. -/
theorem C8_cover_derived (sq : ℕ → ℚ) (vx vy : ℕ) (vr : ℚ) (rand : ℕ → ℕ → ℚ)
    (s : WorldState) (x y : ℕ) (hx : x < worldWidth) (hy : y < worldHeight) :
    ((tick sq vx vy vr rand s).tiles x y).tileCover =
      computeTileCover ((tick sq vx vy vr rand s).tiles x y) ∧
    (∀ a b, ((tickTilePhase sq vx vy vr rand s).tiles a b).tileCover =
      (s.tiles a b).tileCover) ∧
    (∀ (g : Grid) (a b : ℕ), ((heatPass g) a b).tileCover = (g a b).tileCover) ∧
    (∀ (g : Grid) (a b : ℕ),
      ((eruptVolcano sq vx vy vr g) a b).tileCover = (g a b).tileCover) := by
  refine ⟨?_, ?_, ?_, ?_⟩
  · rw [tick_def, finishTiles_tiles]
    exact reclassifyPass_cover_of_mem _ x y hx hy
  · intro a b
    rw [tickTilePhase_def, tileFold_cover]
    exact (eruptVolcano_keeps sq vx vy vr s.tiles a b).2.2.1
  · intro g a b
    exact (heatPass_keeps g a b).2.2.1
  · intro g a b
    exact (eruptVolcano_keeps sq vx vy vr g a b).2.2.1

/-- Witness for C8 at the zeroed world and tile (0,0). -/
theorem C8_witness :
    (0 < worldWidth ∧ 0 < worldHeight) ∧
    ((tick (fun _ => 0) 0 0 0 (fun _ _ => 1) witState).tiles 0 0).tileCover =
      computeTileCover ((tick (fun _ => 0) 0 0 0 (fun _ _ => 1) witState).tiles 0 0) :=
  ⟨⟨by decide, by decide⟩,
    (C8_cover_derived (fun _ => 0) 0 0 0 (fun _ _ => 1) witState 0 0
      (by decide) (by decide)).1⟩

end EarthSim

namespace EarthSim

/-- Counterexample to claim C6: population diffusion updates only
biomass.prokaryote and never biomass.total. Starting from a grid where
total = population holds on every tile, one transferProkaryotes step
leaves the East neighbor with population 3 but total 0, so neither
total = population nor population ≤ total survives the operation the
claim says leaves them equal. -/
theorem C6_counterexample :
    (gridC6 1 0).biomass.total = (gridC6 1 0).biomass.prokaryote ∧
    ((transferProkaryotes gridC6 0 0) 1 0).biomass.prokaryote = 3 ∧
    ((transferProkaryotes gridC6 0 0) 1 0).biomass.total = 0 := by
  have hT : canProkaryotesSurvive (gridC6 0 0) := by decide
  have hstep : transferProkaryotes gridC6 0 0 =
      transferProkVertical (transferProkHorizontal gridC6 0 0) 0 0 := by
    unfold transferProkaryotes
    rw [if_pos hT]
  have hhcond : canProkaryotesSurvive (gridC6 ((0 + 1) % worldWidth) 0) ∧
      ((gridC6 0 0).biomass.prokaryote > 2 ∨
        (gridC6 ((0 + 1) % worldWidth) 0).biomass.prokaryote > 2) := by
    refine ⟨by decide, Or.inl ?_⟩
    show (2:ℚ) < (gridC6 0 0).biomass.prokaryote
    norm_num [gridC6]
  have hhoriz : transferProkHorizontal gridC6 0 0 =
      setProk (setProk gridC6 ((0 + 1) % worldWidth) 0
          (((gridC6 0 0).biomass.prokaryote +
            (gridC6 ((0 + 1) % worldWidth) 0).biomass.prokaryote) / 2)) 0 0
        (((gridC6 0 0).biomass.prokaryote +
          (gridC6 ((0 + 1) % worldWidth) 0).biomass.prokaryote) / 2) := by
    unfold transferProkHorizontal
    rw [if_pos hhcond]
  have hmod : (0 + 1) % worldWidth = 1 := by decide
  have hEprok : ((transferProkHorizontal gridC6 0 0) 1 0).biomass.prokaryote = 3 := by
    rw [hhoriz, hmod]
    rw [setProk_prokaryote, if_neg (by decide), setProk_prokaryote, if_pos ⟨rfl, rfl⟩]
    norm_num [gridC6]
  have hEtot : ((transferProkHorizontal gridC6 0 0) 1 0).biomass.total = 0 := by
    obtain ⟨-, -, -, -, h5⟩ := transferProkHorizontal_keeps gridC6 0 0 1 0
    rw [h5]
    norm_num [gridC6]
  obtain ⟨-, -, -, -, hv5⟩ := transferProkVertical_keeps (transferProkHorizontal gridC6 0 0) 0 0 1 0
  refine ⟨rfl, ?_, ?_⟩
  · rw [hstep]
    have hvprok :
        (transferProkVertical (transferProkHorizontal gridC6 0 0) 0 0 1 0).biomass.prokaryote =
          ((transferProkHorizontal gridC6 0 0) 1 0).biomass.prokaryote := by
      unfold transferProkVertical
      split
      · split
        · rw [setProk_prokaryote, if_neg (by decide), setProk_prokaryote, if_neg (by decide)]
        · rfl
      · rfl
    rw [hvprok, hEprok]
  · rw [hstep, hv5, hEtot]

/-- Amended claim C6: applyBiomass (habitability death and growth) and
abiogenesis each leave biomass.total = biomass.prokaryote on the tile they
produce, while population diffusion rewrites biomass.prokaryote only and
keeps every biomass.total unchanged; the equality therefore holds after
each tile's local step but need not hold at a tick boundary, and
population may exceed total after diffusion. -/
theorem C6_amended :
    (∀ (t : Tile) (tA a : Atmosphere) (gl : Biomass),
      (applyBiomass t tA a gl).1.biomass.total =
        (applyBiomass t tA a gl).1.biomass.prokaryote) ∧
    (∀ (r : ℚ) (t : Tile), t.biomass.total = t.biomass.prokaryote →
      (abiogenesisStep r t).biomass.total = (abiogenesisStep r t).biomass.prokaryote) ∧
    (∀ (g : Grid) (x y a b : ℕ),
      ((transferProkaryotes g x y) a b).biomass.total = (g a b).biomass.total) := by
  refine ⟨fun t tA a gl => rfl, ?_, ?_⟩
  · intro r t h
    rcases abiogenesisStep_biomass r t with hb | hb <;> rw [hb]
    exact h
  · intro g x y a b
    exact (transferProkaryotes_keeps g x y a b).2.2.2.2

/-- Witness for the amended C6 at a concrete tile. -/
theorem C6_witness :
    witTile.biomass.total = witTile.biomass.prokaryote ∧
    (abiogenesisStep 1 witTile).biomass.total = (abiogenesisStep 1 witTile).biomass.prokaryote :=
  ⟨rfl, C6_amended.2.1 1 witTile rfl⟩

/-- Counterexample to claim C2: with the global CO2 share equal to zero,
both tiles of the pair fail the claim's re-evaluated step-1 habitability
check, yet the source's population diffusion still averages the pair: the
East neighbor's population changes from 1 to 3. -/
theorem C2_counterexample :
    ¬specHabitable 0 (gridC2 0 0) ∧ ¬specHabitable 0 (gridC2 1 0) ∧
    (gridC2 1 0).biomass.prokaryote = 1 ∧
    ((transferProkaryotes gridC2 0 0) 1 0).biomass.prokaryote = 3 := by
  have hT : canProkaryotesSurvive (gridC2 0 0) := by decide
  have hstep : transferProkaryotes gridC2 0 0 =
      transferProkVertical (transferProkHorizontal gridC2 0 0) 0 0 := by
    unfold transferProkaryotes
    rw [if_pos hT]
  have hhcond : canProkaryotesSurvive (gridC2 ((0 + 1) % worldWidth) 0) ∧
      ((gridC2 0 0).biomass.prokaryote > 2 ∨
        (gridC2 ((0 + 1) % worldWidth) 0).biomass.prokaryote > 2) := by
    refine ⟨by decide, Or.inl ?_⟩
    show (2:ℚ) < (gridC2 0 0).biomass.prokaryote
    norm_num [gridC2]
  have hhoriz : transferProkHorizontal gridC2 0 0 =
      setProk (setProk gridC2 ((0 + 1) % worldWidth) 0
          (((gridC2 0 0).biomass.prokaryote +
            (gridC2 ((0 + 1) % worldWidth) 0).biomass.prokaryote) / 2)) 0 0
        (((gridC2 0 0).biomass.prokaryote +
          (gridC2 ((0 + 1) % worldWidth) 0).biomass.prokaryote) / 2) := by
    unfold transferProkHorizontal
    rw [if_pos hhcond]
  have hEprok : ((transferProkHorizontal gridC2 0 0) 1 0).biomass.prokaryote = 3 := by
    rw [hhoriz, show (0 + 1) % worldWidth = 1 by decide]
    rw [setProk_prokaryote, if_neg (by decide), setProk_prokaryote, if_pos ⟨rfl, rfl⟩]
    norm_num [gridC2]
  refine ⟨?_, ?_, rfl, ?_⟩
  · rintro ⟨-, -, hz⟩
    exact hz rfl
  · rintro ⟨-, -, hz⟩
    exact hz rfl
  · rw [hstep]
    have hvprok :
        (transferProkVertical (transferProkHorizontal gridC2 0 0) 0 0 1 0).biomass.prokaryote =
          ((transferProkHorizontal gridC2 0 0) 1 0).biomass.prokaryote := by
      unfold transferProkVertical
      split
      · split
        · rw [setProk_prokaryote, if_neg (by decide), setProk_prokaryote, if_neg (by decide)]
        · rfl
      · rfl
    rw [hvprok, hEprok]

/-- Amended claim C2: population diffusion is interleaved with the local
pass — each tile runs transferProkaryotes immediately after its own local
update inside the same per-tile loop — and a pair exchanges exactly when
both tiles have heat strictly below unlivableTemperature and water cover
(no CO2 condition) and at least one of the pair's populations exceeds 2,
both populations then being set to the pairwise average immediately. -/
theorem C2_amended :
    (∀ (tA : Atmosphere) (htf : ℚ) (rand : ℕ → ℕ → ℚ) (s : WorldState) (p : ℕ × ℕ),
      (localStep tA htf rand s p).tiles =
        transferProkaryotes (localUpdate tA htf rand s p).tiles p.1 p.2) ∧
    (∀ (g : Grid) (x y : ℕ), y < worldHeight →
      transferProkaryotes g x y = popDiffusionAmendedStep g x y) :=
  ⟨fun tA htf rand s p => rfl, fun g x y hy => transferProkaryotes_eq_amended g x y hy⟩

/-- Witness for the amended C2 at a concrete grid. -/
theorem C2_witness :
    (0 < worldHeight) ∧
    transferProkaryotes (fun _ _ => witTile) 0 0 =
      popDiffusionAmendedStep (fun _ _ => witTile) 0 0 :=
  ⟨by decide, C2_amended.2 (fun _ _ => witTile) 0 0 (by decide)⟩

end EarthSim

namespace EarthSim

/-- Counterexample to claim C3: the abiogenesis check of the source never
consults tileCover. On a rock tile with zero biomass and heat strictly
between minAbiogenesisHeat and unlivableTemperature, a successful draw
still sets population = total = 1, contradicting that abiogenesis fires
only when tileCover == Water. -/
theorem C3_counterexample :
    rockTileC3.tileCover ≠ TileCover.Water ∧
    rockTileC3.biomass.total = 0 ∧
    prokaryoteAbiogenesisMinHeat < rockTileC3.heat ∧
    rockTileC3.heat < unlivableTemperature ∧
    (abiogenesisStep 0 rockTileC3).biomass.prokaryote = 1 ∧
    (abiogenesisStep 0 rockTileC3).biomass.total = 1 := by
  have h2 : prokaryoteAbiogenesisMinHeat < rockTileC3.heat := by
    norm_num [prokaryoteAbiogenesisMinHeat, rockTileC3]
  have h3 : rockTileC3.heat < unlivableTemperature := by
    norm_num [unlivableTemperature, rockTileC3]
  have hfire := abiogenesisStep_fires (t := rockTileC3) (r := 0) rfl h2 h3
    (by norm_num [prokaryoteAbiogenesisChance])
  refine ⟨by decide, rfl, h2, h3, ?_, ?_⟩ <;> rw [hfire]

/-- Amended claim C3: abiogenesis fires on a tile exactly when total = 0
and heat lies strictly between minAbiogenesisHeat and
unlivableTemperature and the random draw succeeds — tileCover is not
consulted — and then sets population = total = 1. The same tick's growth
step then rescales the newborn population: on a water tile with heat not
above unlivableTemperature it becomes min (1 + min(share*rate, rate))
capacity — not exactly 1 whenever the CO2 share is nonzero and the
capacity exceeds 1 — and with a zero CO2 share the newborn population is
killed back to 0. -/
theorem C3_amended :
    (∀ (r : ℚ) (t : Tile),
      (t.biomass.total = 0 ∧ t.heat > prokaryoteAbiogenesisMinHeat ∧
          t.heat < unlivableTemperature ∧ r < prokaryoteAbiogenesisChance →
        abiogenesisStep r t = { t with biomass := { total := 1, prokaryote := 1 } }) ∧
      (¬(t.biomass.total = 0 ∧ t.heat > prokaryoteAbiogenesisMinHeat ∧
          t.heat < unlivableTemperature ∧ r < prokaryoteAbiogenesisChance) →
        abiogenesisStep r t = t)) ∧
    (∀ (t : Tile) (tA a : Atmosphere) (gl : Biomass),
      t.tileCover = TileCover.Water → ¬t.heat > unlivableTemperature →
      t.biomass = { total := 1, prokaryote := 1 } →
      (tA.carbonDioxide ≠ 0 →
        (applyBiomass t tA a gl).1.biomass.prokaryote =
          min (1 + min (tA.carbonDioxide * prokaryoteReproductionRate)
              prokaryoteReproductionRate)
            (t.baseLuminosity * fullLuminosityHeat * photosynthticBiomassPerEnergy)) ∧
      (tA.carbonDioxide = 0 → 0 ≤ t.baseLuminosity →
        (applyBiomass t tA a gl).1.biomass.prokaryote = 0)) := by
  constructor
  · intro r t
    exact ⟨fun h => abiogenesisStep_fires h.1 h.2.1 h.2.2.1 h.2.2.2, abiogenesisStep_noop⟩
  · intro t tA a gl hw hh hb
    have hpop : (applyBiomass t tA a gl).1.biomass.prokaryote = grownProkaryote t tA := rfl
    constructor
    · intro hc
      rw [hpop, grownProkaryote_of_alive hh hw hc, hb]
      norm_num
    · intro hc hl
      rw [hpop, grownProkaryote_of_dead_co2 hc hl]

/-- Witness for the amended C3: the no-fire case on the zeroed tile and
the growth of a fresh population-1 water tile under a unit CO2 pool. -/
theorem C3_witness :
    (abiogenesisStep 1 witTile = witTile) ∧
    (applyBiomass (gridC2 1 0) stateC5.atmosphere stateC5.atmosphere
        witState.biomass).1.biomass.prokaryote =
      min (1 + min (stateC5.atmosphere.carbonDioxide * prokaryoteReproductionRate)
          prokaryoteReproductionRate)
        ((gridC2 1 0).baseLuminosity * fullLuminosityHeat * photosynthticBiomassPerEnergy) :=
  ⟨(C3_amended.1 1 witTile).2
      (fun h => absurd h.2.1 (by norm_num [witTile, prokaryoteAbiogenesisMinHeat])),
    (C3_amended.2 (gridC2 1 0) stateC5.atmosphere stateC5.atmosphere witState.biomass
      (by decide) (by decide) (by decide)).1 (by decide)⟩

end EarthSim

namespace EarthSim

theorem raiseTile_alt_self (g : Grid) (x y : ℕ) (m : ℚ) :
    ((raiseTile g x y m) x y).altitude = min ((g x y).altitude + m) maxAltitude := by
  unfold raiseTile
  rw [setTile_self]

/-- Counterexample to claim C4: the source's spread matrix is anchored at
the selected tile's north-west corner, not centered on it — the radial
peak sits at offset (4,4). At the selected tile itself the offset distance
is sqrt(32) > 4, so the eruption adds nothing there, while the claim's
centered transcription adds the full upthrust (1000) to the selected tile:
the two functions differ at tile (50,50) of the flat grid. -/
theorem C4_counterexample :
    sqC4 0 = 0 ∧ volcanoUpthrust 0 = 1000 ∧
    ((eruptVolcano sqC4 50 50 0 flatGridC4) 50 50).altitude = 0 ∧
    1000 ≤ ((eruptVolcanoClaim sqC4 50 50 0 flatGridC4) 50 50).altitude := by
  refine ⟨rfl, volcanoUpthrust_zero, ?_, ?_⟩
  · rw [eruptVolcano_altitude, if_pos (by decide)]
    have hdist : volcanoSqDist (50 - 50) (50 - 50) = 32 := by decide
    rw [show (50 - 50 : ℕ) = 0 from rfl]
    unfold volcanoSpread
    rw [show volcanoSqDist 0 0 = 32 from by decide]
    rw [show sqC4 32 = 5 from by norm_num [sqC4]]
    norm_num [volcanoHalfDiameter, volcanoDiameter, flatGridC4, maxAltitude]
  · rw [eruptVolcanoClaim_def,
      show claimVolcanoOffsets =
        claimVolcanoOffsets.take 40 ++ ((0:ℤ), (0:ℤ)) :: claimVolcanoOffsets.drop 41 from
          by decide,
      List.foldl_append, List.foldl_cons]
    dsimp only
    have hstepval : ∀ g : Grid,
        (if 0 ≤ ((50:ℕ) : ℤ) + (0:ℤ) ∧ ((50:ℕ) : ℤ) + (0:ℤ) < worldWidth ∧
            0 ≤ ((50:ℕ) : ℤ) + (0:ℤ) ∧ ((50:ℕ) : ℤ) + (0:ℤ) < worldHeight then
          raiseTile g (((50:ℕ) : ℤ) + (0:ℤ)).toNat (((50:ℕ) : ℤ) + (0:ℤ)).toNat
            (max ((volcanoHalfDiameter : ℚ) - sqC4 ((0:ℤ) * (0:ℤ) + (0:ℤ) * (0:ℤ)).toNat) 0 /
              (volcanoHalfDiameter : ℚ) * volcanoUpthrust 0)
        else g) = raiseTile g 50 50 1000 := by
      intro g
      rw [if_pos (by decide)]
      rw [show ((((50:ℕ) : ℤ)) + (0:ℤ)).toNat = 50 from by decide]
      rw [show (((0:ℤ) * (0:ℤ) + (0:ℤ) * (0:ℤ))).toNat = 0 from by decide]
      rw [show sqC4 0 = 0 from rfl, volcanoUpthrust_zero]
      norm_num [volcanoHalfDiameter, volcanoDiameter]
    rw [hstepval]
    obtain ⟨-, b2, b3⟩ := claimFold_alt_bounds sqC4 50 50 (le_refl 0)
      (claimVolcanoOffsets.take 40) flatGridC4 50 50
      (by norm_num [flatGridC4]) (by norm_num [flatGridC4, maxAltitude])
    refine le_trans ?_ (claimFold_alt_bounds sqC4 50 50 (le_refl 0)
      (claimVolcanoOffsets.drop 41) _ 50 50 ?_ ?_).1
    · rw [raiseTile_alt_self]
      exact le_min (by linarith) (by norm_num [maxAltitude])
    · rw [raiseTile_alt_self]
      refine le_trans (by norm_num : (0:ℚ) ≤ 1000) ?_
      exact le_min (by linarith) (by norm_num [maxAltitude])
    · rw [raiseTile_alt_self]
      exact min_le_right _ _

/-- Amended claim C4: eruptVolcano selects a base tile and an upthrust
magnitude 1000 + floor(1000 * r), and affects the 9x9 square whose
north-west corner is the selected tile — tiles (baseX+i, baseY+j) for
0 ≤ i, j ≤ 8 — with the radial pattern peaking at offset (4,4); the tile
at (a, b) in the square gains upthrust * max(4 - dist, 0)/4 with dist
measured from that peak, clamped above by maxAltitude; offsets reaching
beyond the grid bounds are skipped with no wrap; with a nonnegative draw
the eruption never lowers a tile already at or below maxAltitude, never
raises one above maxAltitude, and changes no other tile field. -/
theorem C4_amended (sq : ℕ → ℚ) (bx cy : ℕ) (r : ℚ) (g : Grid) (a b : ℕ)
    (hr : 0 ≤ r) (halt : (g a b).altitude ≤ maxAltitude) :
    ((eruptVolcano sq bx cy r g) a b).altitude =
      (if bx ≤ a ∧ a < bx + volcanoDiameter ∧ cy ≤ b ∧ b < cy + volcanoDiameter ∧
          a < worldWidth ∧ b < worldHeight then
        min ((g a b).altitude + volcanoSpread sq (volcanoUpthrust r) (a - bx) (b - cy))
          maxAltitude
      else (g a b).altitude) ∧
    (g a b).altitude ≤ ((eruptVolcano sq bx cy r g) a b).altitude ∧
    ((eruptVolcano sq bx cy r g) a b).altitude ≤ maxAltitude ∧
    ((eruptVolcano sq bx cy r g) a b).baseLuminosity = (g a b).baseLuminosity ∧
    ((eruptVolcano sq bx cy r g) a b).heat = (g a b).heat ∧
    ((eruptVolcano sq bx cy r g) a b).tileCover = (g a b).tileCover ∧
    ((eruptVolcano sq bx cy r g) a b).biomass = (g a b).biomass := by
  obtain ⟨k1, k2, k3, k4⟩ := eruptVolcano_keeps sq bx cy r g a b
  refine ⟨eruptVolcano_altitude sq bx cy r g a b, eruptVolcano_mono sq bx cy g a b hr halt,
    ?_, k1, k2, k3, k4⟩
  rw [eruptVolcano_altitude]
  split
  · exact min_le_right _ _
  · exact halt

/-- Witness for the amended C4 at the flat grid. -/
theorem C4_witness :
    ((0:ℚ) ≤ 0 ∧ (flatGridC4 0 0).altitude ≤ maxAltitude) ∧
    ((eruptVolcano sqC4 0 0 0 flatGridC4) 0 0).altitude =
      (if 0 ≤ 0 ∧ 0 < 0 + volcanoDiameter ∧ 0 ≤ 0 ∧ 0 < 0 + volcanoDiameter ∧
          0 < worldWidth ∧ 0 < worldHeight then
        min ((flatGridC4 0 0).altitude +
          volcanoSpread sqC4 (volcanoUpthrust 0) (0 - 0) (0 - 0)) maxAltitude
      else (flatGridC4 0 0).altitude) ∧
    (flatGridC4 0 0).altitude ≤ ((eruptVolcano sqC4 0 0 0 flatGridC4) 0 0).altitude ∧
    ((eruptVolcano sqC4 0 0 0 flatGridC4) 0 0).altitude ≤ maxAltitude := by
  have hbound : (flatGridC4 0 0).altitude ≤ maxAltitude := by
    norm_num [flatGridC4, maxAltitude]
  obtain ⟨m1, m2, m3, -⟩ := C4_amended sqC4 0 0 0 flatGridC4 0 0 (le_refl 0) hbound
  exact ⟨⟨le_refl 0, hbound⟩, m1, m2, m3⟩

end EarthSim


namespace EarthSim
/-- Counterexample to claim C10: with volcanism and biomass disabled the
per-tile pass still runs gas emission, and rock tiles add carbon dioxide
to the pool; on an all-rock world the carbon dioxide pool increases from
0 to 10000 over a single disabled tick instead of being non-increasing. -/
theorem C10_counterexample :
    stateC10.atmosphere.carbonDioxide = 0 ∧
    (tickDisabled stateC10).atmosphere.carbonDioxide = 10000 := by
  refine ⟨rfl, ?_⟩
  obtain ⟨-, -, -, m4⟩ := tickDisabled_gases stateC10
  rw [m4]
  have hcount : rockTileCount stateC10.tiles = 10000 := by
    unfold rockTileCount
    have hall : tileOrder.countP
        (fun p => decide ((stateC10.tiles p.1 p.2).tileCover = TileCover.Rock)) =
          tileOrder.length :=
      List.countP_eq_length.mpr (fun p _ => rfl)
    rw [hall, tileOrder_length]
    norm_num [worldWidth, worldHeight]
  rw [hcount]
  norm_num [stateC10, carbonPerLandTile]

/-- Amended claim C10: with volcanism and biomass disabled, nitrogen,
oxygen and methane decay geometrically and are non-increasing tick over
tick and converge to zero whenever they start nonnegative; the same holds
for carbon dioxide provided additionally that every tile starts below sea
level and not rock-covered, so that the rock emission term stays silent. -/
theorem C10_amended (s : WorldState)
    (hn : 0 ≤ s.atmosphere.nitrogen) (ho : 0 ≤ s.atmosphere.oxygen)
    (hm : 0 ≤ s.atmosphere.methane) (hc : 0 ≤ s.atmosphere.carbonDioxide)
    (halt : ∀ a b, a < worldWidth → b < worldHeight → (s.tiles a b).altitude < seaLevel)
    (hcov : ∀ a b, a < worldWidth → b < worldHeight →
      (s.tiles a b).tileCover ≠ TileCover.Rock) :
    (∀ n : ℕ,
      (runDisabled s (n+1)).atmosphere.nitrogen ≤ (runDisabled s n).atmosphere.nitrogen ∧
      (runDisabled s (n+1)).atmosphere.oxygen ≤ (runDisabled s n).atmosphere.oxygen ∧
      (runDisabled s (n+1)).atmosphere.methane ≤ (runDisabled s n).atmosphere.methane ∧
      (runDisabled s (n+1)).atmosphere.carbonDioxide ≤
        (runDisabled s n).atmosphere.carbonDioxide) ∧
    (∀ e : ℚ, 0 < e → ∃ N : ℕ, ∀ n : ℕ, N ≤ n →
      (runDisabled s n).atmosphere.nitrogen < e ∧
      (runDisabled s n).atmosphere.oxygen < e ∧
      (runDisabled s n).atmosphere.methane < e ∧
      (runDisabled s n).atmosphere.carbonDioxide < e) := by
  have key := runDisabled_gas_formulas s
  have keyC := runDisabled_co2_formula s halt hcov
  have hr0 : (0:ℚ) ≤ 1 - atmosphereLossRate := by norm_num [atmosphereLossRate]
  have hr1 : (1 - atmosphereLossRate : ℚ) ≤ 1 := by norm_num [atmosphereLossRate]
  constructor
  · intro n
    obtain ⟨k1, k2, k3⟩ := key n
    obtain ⟨k1', k2', k3'⟩ := key (n+1)
    obtain ⟨c1, -, -⟩ := keyC n
    obtain ⟨c1', -, -⟩ := keyC (n+1)
    have hpow : (1 - atmosphereLossRate : ℚ) ^ (n+1) ≤ (1 - atmosphereLossRate) ^ n :=
      pow_le_pow_of_le_one hr0 hr1 (Nat.le_succ n)
    refine ⟨?_, ?_, ?_, ?_⟩
    · rw [k1', k1]; exact mul_le_mul_of_nonneg_left hpow hn
    · rw [k2', k2]; exact mul_le_mul_of_nonneg_left hpow ho
    · rw [k3', k3]; exact mul_le_mul_of_nonneg_left hpow hm
    · rw [c1', c1]; exact mul_le_mul_of_nonneg_left hpow hc
  · intro e he
    obtain ⟨N1, hN1⟩ := geom_decay_lt hn he
    obtain ⟨N2, hN2⟩ := geom_decay_lt ho he
    obtain ⟨N3, hN3⟩ := geom_decay_lt hm he
    obtain ⟨N4, hN4⟩ := geom_decay_lt hc he
    refine ⟨N1 + N2 + N3 + N4, fun n hnn => ?_⟩
    obtain ⟨k1, k2, k3⟩ := key n
    obtain ⟨c1, -, -⟩ := keyC n
    refine ⟨?_, ?_, ?_, ?_⟩
    · rw [k1]; exact hN1 n (by omega)
    · rw [k2]; exact hN2 n (by omega)
    · rw [k3]; exact hN3 n (by omega)
    · rw [c1]; exact hN4 n (by omega)

theorem C10_witness :
    (runDisabled witState 1).atmosphere.nitrogen ≤
      (runDisabled witState 0).atmosphere.nitrogen ∧
    ∃ N : ℕ, ∀ n : ℕ, N ≤ n → (runDisabled witState n).atmosphere.carbonDioxide < 1 := by
  obtain ⟨h1, h2⟩ := C10_amended witState (le_refl 0) (le_refl 0) (le_refl 0) (le_refl 0)
    (fun a b _ _ => by norm_num [witState, witTile, seaLevel])
    (fun a b _ _ => by simp [witState, witTile])
  refine ⟨(h1 0).1, ?_⟩
  obtain ⟨N, hN⟩ := h2 1 (by norm_num)
  exact ⟨N, fun n hn => (hN n hn).2.2.2⟩

end EarthSim

namespace EarthSim

/-- On a water-covered tile the heat written by the per-tile closure is the
exponential blend of the luminosity-driven turn heat with the old heat. -/
theorem erodeAndHeatTile_heat_water (htf : ℚ) (t : Tile)
    (hw : t.tileCover = TileCover.Water) :
    (erodeAndHeatTile htf t).heat =
      fullLuminosityHeat * (t.baseLuminosity * (1 - waterReflectivity)) * (1 + htf) * (1/5) +
        t.heat * (4/5) := by
  unfold erodeAndHeatTile computeHeat computeLuminosity
  dsimp only
  rw [if_pos hw]

/-- Counterexample to claim C5: applyBiomass subtracts the grown biomass's
carbon use from the global pool with no clamp, so a populous tile drives
the carbon dioxide pool negative in one tick — here from a state whose
gases and biomass all start nonnegative, the pool ends at -7101/100. -/
theorem C5_counterexample :
    nonnegStateB stateC5 = true ∧
    (tick sqC4 10 10 0 (fun _ _ => 1) stateC5).atmosphere.carbonDioxide < 0 := by
  refine ⟨nonnegStateB_C5, ?_⟩
  rw [tick_def, finishTiles_atmosphere, tickTilePhase_def, tileOrder_head, List.foldl_cons]
  set tA := computeTileAtmosphere (decayAtmosphere stateC5.atmosphere) with htA
  set htf := computeHeatTrappingFactor tA with hhtf
  set rand := (fun _ _ => (1:ℚ) : ℕ → ℕ → ℚ) with hrand
  set s0 := preparedState sqC4 10 10 0 stateC5 with hs0
  have hs0tiles : s0.tiles = eruptVolcano sqC4 10 10 0 stateC5.tiles := rfl
  have hkeep := eruptVolcano_keeps sqC4 10 10 0 stateC5.tiles
  have hH : (s0.tiles 0 0).heat = 100 := by
    rw [hs0tiles, (hkeep 0 0).2.1, stateC5_tiles_00]
  have hC : (s0.tiles 0 0).tileCover = TileCover.Water := by
    rw [hs0tiles, (hkeep 0 0).2.2.1, stateC5_tiles_00]
  have hL : (s0.tiles 0 0).baseLuminosity = 1 := by
    rw [hs0tiles, (hkeep 0 0).1, stateC5_tiles_00]
  have hB : (s0.tiles 0 0).biomass = ({ total := 7200, prokaryote := 7200 } : Biomass) := by
    rw [hs0tiles, (hkeep 0 0).2.2.2, stateC5_tiles_00]
  have htAco2 : tA.carbonDioxide = 99/1000000 := by
    rw [htA]
    norm_num [computeTileAtmosphere, decayAtmosphere, stateC5, atmosphereLossRate,
      atmospherePerTile, worldWidth, worldHeight]
  have hco2nn : 0 ≤ tA.carbonDioxide := by rw [htAco2]; norm_num
  have htAne : tA.carbonDioxide ≠ 0 := by rw [htAco2]; norm_num
  have hhtfval : htf = 99/5000000 := by
    rw [hhtf, htA]
    norm_num [computeHeatTrappingFactor, computeTileAtmosphere, decayAtmosphere, stateC5,
      atmosphereLossRate, atmospherePerTile, carbonHeatRetention, worldWidth, worldHeight]
  have hheat2 : (erodeAndHeatTile htf (s0.tiles 0 0)).heat = 92 + 12 * (99/5000000 : ℚ) := by
    rw [erodeAndHeatTile_heat_water htf _ hC, hL, hH, hhtfval]
    norm_num [fullLuminosityHeat, waterReflectivity]
  have hnotheat : ¬ (erodeAndHeatTile htf (s0.tiles 0 0)).heat > unlivableTemperature := by
    rw [hheat2]; norm_num [unlivableTemperature]
  have hcovt2 : (erodeAndHeatTile htf (s0.tiles 0 0)).tileCover = TileCover.Water := by
    rw [(erodeAndHeatTile_keeps htf _).2.1, hC]
  have hgrow : grownProkaryote (erodeAndHeatTile htf (s0.tiles 0 0)) tA = 7200 := by
    rw [grownProkaryote_of_alive hnotheat hcovt2 htAne,
      (erodeAndHeatTile_keeps htf _).2.2, hB, (erodeAndHeatTile_keeps htf _).1, hL, htAco2]
    norm_num [prokaryoteReproductionRate, fullLuminosityHeat, photosynthticBiomassPerEnergy,
      min_def]
  have hatm1 : (emitTileGas s0.atmosphere
      (erodeAndHeatTile htf (s0.tiles 0 0)).tileCover).carbonDioxide = 99/100 := by
    rw [emitTileGas_carbonDioxide, hcovt2]
    have hs0a : s0.atmosphere = decayAtmosphere stateC5.atmosphere := rfl
    rw [hs0a, if_neg (by decide : ¬ (TileCover.Water = TileCover.Rock))]
    norm_num [decayAtmosphere, stateC5, atmosphereLossRate]
  have ht3noop : abiogenesisStep (rand 0 0) (erodeAndHeatTile htf (s0.tiles 0 0)) =
      erodeAndHeatTile htf (s0.tiles 0 0) := by
    refine abiogenesisStep_noop ?_
    rintro ⟨-, -, -, h4⟩
    rw [hrand] at h4
    norm_num [prokaryoteAbiogenesisChance] at h4
  have hs1co2 : (localStep tA htf rand s0 ((0:ℕ), (0:ℕ))).atmosphere.carbonDioxide =
      99/100 - 72 := by
    rw [localStep_atmosphere, applyBiomass_atm]
    dsimp only
    rw [ht3noop, hgrow, hatm1]
    norm_num [carbonPerPhotosyntheticBiomass]
  have hbio0 : ∀ a b, 0 ≤ (s0.tiles a b).biomass.prokaryote ∧
      0 ≤ (s0.tiles a b).biomass.total ∧ 0 ≤ (s0.tiles a b).baseLuminosity := by
    intro a b
    rw [hs0tiles, (hkeep a b).2.2.2, (hkeep a b).1]
    have hT : stateC5.tiles = tileC5 := rfl
    rw [hT]
    unfold tileC5
    split <;> norm_num
  obtain ⟨m1, m2, -, -, -, -, -⟩ :=
    localStep_master tA htf rand s0 ((0:ℕ), (0:ℕ)) hco2nn hbio0
  have hcov1 : ∀ a b,
      ((localStep tA htf rand s0 ((0:ℕ), (0:ℕ))).tiles a b).tileCover ≠ TileCover.Rock := by
    intro a b
    rw [m2 a b, hs0tiles, (hkeep a b).2.2.1]
    have hT : stateC5.tiles = tileC5 := rfl
    rw [hT]
    unfold tileC5
    split <;> simp
  obtain ⟨-, -, -, -, -, -, k7⟩ := tileFold_master tA htf rand hco2nn tileOrder.tail
    (localStep tA htf rand s0 ((0:ℕ), (0:ℕ))) m1
  refine lt_of_le_of_lt (k7 hcov1) ?_
  rw [hs1co2]
  norm_num

/-- Amended claim C5: from a state whose gases and per-tile biomass and
base luminosity are all nonnegative, tick keeps nitrogen, oxygen, methane
and water vapour nonnegative and keeps every tile's biomass nonnegative;
carbon dioxide is exempt, as applyBiomass subtracts from it unclamped. -/
theorem C5_amended (sq : ℕ → ℚ) (vx vy : ℕ) (vr : ℚ) (rand : ℕ → ℕ → ℚ) (s : WorldState)
    (hn : 0 ≤ s.atmosphere.nitrogen) (ho : 0 ≤ s.atmosphere.oxygen)
    (hc : 0 ≤ s.atmosphere.carbonDioxide) (hm : 0 ≤ s.atmosphere.methane)
    (hbio : ∀ a b, 0 ≤ (s.tiles a b).biomass.prokaryote ∧ 0 ≤ (s.tiles a b).biomass.total ∧
      0 ≤ (s.tiles a b).baseLuminosity) :
    0 ≤ (tick sq vx vy vr rand s).atmosphere.nitrogen ∧
    0 ≤ (tick sq vx vy vr rand s).atmosphere.oxygen ∧
    0 ≤ (tick sq vx vy vr rand s).atmosphere.methane ∧
    0 ≤ (tick sq vx vy vr rand s).atmosphere.waterVapour ∧
    (∀ a b, 0 ≤ ((tick sq vx vy vr rand s).tiles a b).biomass.prokaryote ∧
      0 ≤ ((tick sq vx vy vr rand s).tiles a b).biomass.total) := by
  have hco2nn : 0 ≤ (computeTileAtmosphere (decayAtmosphere s.atmosphere)).carbonDioxide := by
    show 0 ≤ (s.atmosphere.carbonDioxide - s.atmosphere.carbonDioxide * atmosphereLossRate) *
      atmospherePerTile
    refine mul_nonneg ?_ (by norm_num [atmospherePerTile, worldWidth, worldHeight])
    rw [atmosphereLossRate]
    linarith
  have hkeep := eruptVolcano_keeps sq vx vy vr s.tiles
  have hbio0 : ∀ a b,
      0 ≤ ((preparedState sq vx vy vr s).tiles a b).biomass.prokaryote ∧
      0 ≤ ((preparedState sq vx vy vr s).tiles a b).biomass.total ∧
      0 ≤ ((preparedState sq vx vy vr s).tiles a b).baseLuminosity := by
    intro a b
    have ht : (preparedState sq vx vy vr s).tiles = eruptVolcano sq vx vy vr s.tiles := rfl
    rw [ht, (hkeep a b).2.2.2, (hkeep a b).1]
    exact hbio a b
  obtain ⟨k1, -, k3, k4, k5, k6, -⟩ := tileFold_master
    (computeTileAtmosphere (decayAtmosphere s.atmosphere))
    (computeHeatTrappingFactor (computeTileAtmosphere (decayAtmosphere s.atmosphere)))
    rand hco2nn tileOrder (preparedState sq vx vy vr s) hbio0
  rw [tick_def]
  have hatm : (finishTiles (tickTilePhase sq vx vy vr rand s)).atmosphere =
      (tickTilePhase sq vx vy vr rand s).atmosphere := finishTiles_atmosphere _
  have hphase := tickTilePhase_def sq vx vy vr rand s
  have hpa : (preparedState sq vx vy vr s).atmosphere = decayAtmosphere s.atmosphere := rfl
  refine ⟨?_, ?_, ?_, ?_, ?_⟩
  · rw [hatm, hphase, k3, hpa]
    show 0 ≤ s.atmosphere.nitrogen - s.atmosphere.nitrogen * atmosphereLossRate
    rw [atmosphereLossRate]; linarith
  · rw [hatm, hphase]
    refine le_trans ?_ k5
    rw [hpa]
    show 0 ≤ s.atmosphere.oxygen - s.atmosphere.oxygen * atmosphereLossRate
    rw [atmosphereLossRate]; linarith
  · rw [hatm, hphase, k4, hpa]
    show 0 ≤ s.atmosphere.methane - s.atmosphere.methane * atmosphereLossRate
    rw [atmosphereLossRate]; linarith
  · rw [hatm, hphase, k6]
    have h0 : (preparedState sq vx vy vr s).atmosphere.waterVapour = 0 := rfl
    rw [h0]
    simp [waterVaporPerOceanTile]
  · intro a b
    rw [finishTiles_tiles]
    obtain ⟨-, -, -, r4⟩ :=
      reclassifyPass_keeps (heatPass (tickTilePhase sq vx vy vr rand s).tiles) a b
    rw [r4]
    obtain ⟨-, -, -, h4⟩ := heatPass_keeps (tickTilePhase sq vx vy vr rand s).tiles a b
    rw [h4, hphase]
    exact ⟨(k1 a b).1, (k1 a b).2.1⟩

theorem C5_witness :
    0 ≤ (tick (fun _ => (0:ℚ)) 0 0 0 (fun _ _ => (0:ℚ)) witState).atmosphere.nitrogen ∧
    0 ≤ (tick (fun _ => (0:ℚ)) 0 0 0 (fun _ _ => (0:ℚ)) witState).atmosphere.waterVapour := by
  obtain ⟨w1, -, -, w4, -⟩ := C5_amended (fun _ => (0:ℚ)) 0 0 0 (fun _ _ => (0:ℚ)) witState
    (le_refl 0) (le_refl 0) (le_refl 0) (le_refl 0)
    (fun a b => ⟨le_refl 0, le_refl 0, le_refl 0⟩)
  exact ⟨w1, w4⟩

end EarthSim
